import Mathlib

/-!
Shallow embedding of the tts-portal2025 GPS-tracking core
(portal2025/gpstracking/util_db.py, portal2025/gpstracking/models.py,
portal2025/utils/gen_conv.py) and proofs about it.

Python values flowing through the pipeline are modelled by the inductive
type PyVal; Python dicts are association lists that keep insertion order,
as CPython dicts do.  Machine-level concerns (float rounding, UUID bytes,
GEOS point internals) are abstracted: numbers are modelled as integers,
UUIDs and GEOS points as opaque tags, which is faithful for every claim
proved here (none depends on fractional values or UUID byte layout).
Exceptions are modelled with Except, the error value carrying the state
at the moment of the raise, because the Python code mutates shared state
in place before an exception propagates to a catch-all handler.
-/

namespace Portal

/-- Model of a Python/JSON value as it appears in decoded MQTT messages and
in the in-memory buffers.  `point` models a django GEOS Point (built from
the message's longitude/latitude), `uuid` models a Tracker primary key. -/
inductive PyVal where
  | none
  | bool (b : Bool)
  | int (n : Int)
  | str (s : String)
  | point (lon lat : Int)
  | uuid (n : Nat)
  | dict (entries : List (String × PyVal))
  | list (items : List PyVal)

/-- Python truthiness (`bool(v)`): None, False, 0, "", {}, [] are falsy,
everything else (including any GEOS point or UUID object) is truthy. -/
def truthy : PyVal → Bool
  | PyVal.none => false
  | PyVal.bool b => b
  | PyVal.int n => n != 0
  | PyVal.str s => s != ""
  | PyVal.point _ _ => true
  | PyVal.uuid _ => true
  | PyVal.dict kvs => !kvs.isEmpty
  | PyVal.list xs => !xs.isEmpty

/-- ASCII uppercasing of one character, modelling Python `str.upper` on the
ASCII range (identifier data in this pipeline is ASCII). -/
def pyUpperChar (c : Char) : Char := c.toUpper

/-- Python `s.upper()` modelled over the character list of the string. -/
def pyUpper (s : String) : String := ⟨s.data.map pyUpperChar⟩

/-- Characters stripped by Python `str.strip()` (ASCII whitespace). -/
def pyIsSpace (c : Char) : Bool :=
  c = ' ' || c = '\t' || c = '\n' || c = '\r' || c = '\x0b' || c = '\x0c'

/-- Python `s.strip()`: remove leading and trailing whitespace. -/
def pyStrip (s : String) : String :=
  ⟨(s.data.dropWhile pyIsSpace).reverse.dropWhile pyIsSpace |>.reverse⟩

/-- Python dict lookup `d.get(k)` over an insertion-ordered association
list (CPython dicts never hold duplicate keys, and the lists we build
with dictSet keep that invariant). -/
def dictGet (kvs : List (String × PyVal)) (k : String) : Option PyVal :=
  (kvs.find? (fun kv => kv.1 == k)).map (fun kv => kv.2)

/-- Python dict assignment `d[k] = v`: update in place if the key exists
(keeping its position, as CPython does), otherwise append. -/
def dictSet (kvs : List (String × PyVal)) (k : String) (v : PyVal) :
    List (String × PyVal) :=
  if kvs.any (fun kv => kv.1 == k) then
    kvs.map (fun kv => if kv.1 == k then (k, v) else kv)
  else kvs ++ [(k, v)]

/-- Python `str(v)` as used for group smartcodes; only precise for the
scalar values that reach it (str/int/bool/None have their Python
rendering, container renderings are schematic placeholders — no claim
depends on them). -/
def pyStr : PyVal → String
  | PyVal.none => "None"
  | PyVal.bool b => if b then "True" else "False"
  | PyVal.int n => toString n
  | PyVal.str s => s
  | PyVal.point _ _ => "POINT"
  | PyVal.uuid n => toString n
  | PyVal.dict _ => "DICT"
  | PyVal.list _ => "LIST"

mutual
/-- Python `==` between the values that reach the flush comparison and the
message keys.  True/False compare equal to 1/0 as in Python; values of
different (non-numeric) kinds compare unequal.  Containers are compared
structurally — the pipeline only ever stores scalar leaves, points and
UUIDs in the compared positions, where this coincides with Python. -/
def pyEq : PyVal → PyVal → Bool
  | PyVal.none, PyVal.none => true
  | PyVal.bool a, PyVal.bool b => a == b
  | PyVal.bool a, PyVal.int b => (if a then (1 : Int) else 0) == b
  | PyVal.int a, PyVal.bool b => a == (if b then (1 : Int) else 0)
  | PyVal.int a, PyVal.int b => a == b
  | PyVal.str a, PyVal.str b => a == b
  | PyVal.point a b, PyVal.point c d => a == c && b == d
  | PyVal.uuid a, PyVal.uuid b => a == b
  | PyVal.dict a, PyVal.dict b => pyEqFields a b
  | PyVal.list a, PyVal.list b => pyEqList a b
  | _, _ => false

/-- Structural equality of dict entry lists (helper for pyEq). -/
def pyEqFields : List (String × PyVal) → List (String × PyVal) → Bool
  | [], [] => true
  | (k, v) :: rest, (k', v') :: rest' =>
      k == k' && pyEq v v' && pyEqFields rest rest'
  | _, _ => false

/-- Structural equality of list items (helper for pyEq). -/
def pyEqList : List PyVal → List PyVal → Bool
  | [], [] => true
  | v :: rest, v' :: rest' => pyEq v v' && pyEqList rest rest'
  | _, _ => false
end

/-- Code-point order on character lists, modelling Python string `<`. -/
def charListLT : List Char → List Char → Bool
  | [], [] => false
  | [], _ :: _ => true
  | _ :: _, [] => false
  | a :: as, b :: bs =>
      if a.toNat < b.toNat then true
      else if a.toNat = b.toNat then charListLT as bs
      else false

/-- Python `<=` between buffered recency values.  int/bool compare
numerically, strings by code points; any other combination raises
TypeError in Python, modelled as an error. -/
def pyLE : PyVal → PyVal → Except Unit Bool
  | PyVal.int a, PyVal.int b => Except.ok (a ≤ b)
  | PyVal.int a, PyVal.bool b => Except.ok (a ≤ (if b then 1 else 0))
  | PyVal.bool a, PyVal.int b => Except.ok ((if a then (1 : Int) else 0) ≤ b)
  | PyVal.bool a, PyVal.bool b =>
      Except.ok ((if a then (1 : Int) else 0) ≤ (if b then 1 else 0))
  | PyVal.str a, PyVal.str b =>
      Except.ok (charListLT a.data b.data || a == b)
  | _, _ => Except.error ()

/-- Python `x or default` for the buffered timestamp defaults
(`tracker_entry.get(k) or received`): the left value is kept when truthy. -/
def pyOr (v : Option PyVal) (d : PyVal) : PyVal :=
  match v with
  | some x => if truthy x then x else d
  | Option.none => d

-- ===== Field Mapper (portal2025/utils/gen_conv.py) =====

mutual
/-- `flatten_multilevel(data, prefix)` from utils/gen_conv.py, the recursive
worker producing the flat (dotted/indexed key, scalar value) pairs.  The
root-level repackaging into a dict is flatten_multilevel_root below. -/
def flatten_multilevel (data : PyVal) (pre : String) : List (String × PyVal) :=
  match data with
  | PyVal.dict kvs => flattenDictEntries kvs pre
  | PyVal.list xs => flattenListItems xs pre 0
  | v => [(pre, v)]

/-- Worker over dict entries: full_key = prefix.k (or k at the root). -/
def flattenDictEntries (kvs : List (String × PyVal)) (pre : String) :
    List (String × PyVal) :=
  match kvs with
  | [] => []
  | (k, v) :: rest =>
      flatten_multilevel v (if pre == "" then k else pre ++ "." ++ k) ++
        flattenDictEntries rest pre

/-- Worker over list items: full_key = prefix[i]. -/
def flattenListItems (xs : List PyVal) (pre : String) (i : Nat) :
    List (String × PyVal) :=
  match xs with
  | [] => []
  | x :: rest =>
      flatten_multilevel x (pre ++ "[" ++ toString i ++ "]") ++
        flattenListItems rest pre (i + 1)
end

/-- Root call `flatten_multilevel(data, prefix='')`: a dict root is
repackaged via `dict(flat_items)` (later duplicates win, insertion order
kept).  A non-dict root yields a plain list, on which the caller's
`.items()` raises — modelled as Option.none. -/
def flatten_multilevel_root (data : PyVal) : Option (List (String × PyVal)) :=
  match data with
  | PyVal.dict _ =>
      some ((flatten_multilevel data "").foldl
        (fun acc kv => dictSet acc kv.1 kv.2) [])
  | _ => Option.none

/-- Lookup in the decoder-field translation table (`key in mapping` /
`mapping[key]`); the table maps a source key to a target name or to
Python None (modelled as Option.none in the value position). -/
def mapLookup (mapping : List (String × Option String)) (k : String) :
    Option (Option String) :=
  (mapping.find? (fun kv => kv.1 == k)).map (fun kv => kv.2)

/-- One iteration of the remap_keys loop over a flattened (key, value)
pair: mapped keys with a non-None target and non-None value land in
result, keys absent from the table are appended to unmapped. -/
def remapStep (mapping : List (String × Option String))
    (acc : List (String × PyVal) × List String) (kv : String × PyVal) :
    List (String × PyVal) × List String :=
  match mapLookup mapping kv.1 with
  | some newKey =>
      match newKey, kv.2 with
      | some _, PyVal.none => (acc.1, acc.2)
      | some nk, v => (dictSet acc.1 nk v, acc.2)
      | Option.none, _ => (acc.1, acc.2)
  | Option.none => (acc.1, acc.2 ++ [kv.1])

/-- `remap_keys(data, mapping)` from utils/gen_conv.py.  Returns
`(None, unmapped)` when no key mapped (the source logs an error and
returns None, not an empty dict).  The Except error is the AttributeError
raised by `flat_data.items()` when data is not a dict. -/
def remap_keys (data : PyVal) (mapping : List (String × Option String)) :
    Except Unit (Option (List (String × PyVal)) × List String) :=
  match flatten_multilevel_root data with
  | Option.none => Except.error ()
  | some flat =>
      let res := flat.foldl (remapStep mapping) ([], [])
      if res.1.isEmpty then Except.ok (Option.none, res.2)
      else Except.ok (some res.1, res.2)

-- ===== Data model (portal2025/gpstracking/models.py) =====

/-- A durable TrackerIdentifier row: one external ID, under one identifier
type, bound to exactly one Tracker.  rid is the surrogate primary key,
tracker the owning Tracker's id, typeCode the TrackerIdentifierType code. -/
structure TIRow where
  rid : Nat
  tracker : Nat
  typeCode : String
  external_id : String
  identkey : String
deriving Repr, DecidableEq

/-- A durable Tracker row.  Columns other than the primary key are kept as
a Python-style attribute map (getattr returns None for unset columns). -/
structure TrackerRow where
  tid : Nat
  fields : List (String × PyVal)

/-- A durable TrackerMessage row / a queued message entry (the queued dict
has exactly the columns of the row, so one structure models both).
sha256_key is the content-hash primary key. -/
structure MsgRow where
  tracker_identifier : Nat
  msgtype : PyVal
  content : PyVal
  raw : PyVal
  dbcall : Option (List (String × PyVal))
  message_timestamp : PyVal
  sha256_key : PyVal
  position : Option (Int × Int)
  position_timestamp : Option PyVal

/-- The durable store: identifier-type vocabulary, type→group auto-link
rules, trackers, identifiers, groups (id, smartcode), tracker↔group
memberships and stored messages, plus fresh-id counters for rows the
database assigns keys to. -/
structure DBState where
  types : List String
  typeGroups : List (String × Nat)
  trackers : List TrackerRow
  nextTracker : Nat
  identifiers : List TIRow
  nextIdentifier : Nat
  groups : List (Nat × String)
  nextGroup : Nat
  trackerGroups : List (Nat × Nat)
  messages : List MsgRow

/-- The process state of GpsTrackingUtilDB: the durable store plus the
three pieces of in-memory shared state (identity cache, per-tracker state
merge buffer, message queue). -/
structure SysState where
  db : DBState
  tracker_cache : List (String × TIRow)
  tracker_buffer : List (Nat × List (String × PyVal))
  message_queue : List MsgRow

/-- `TrackerIdentifier.save` (models.py:636) together with the table's
uniqueness constraints: external_id is uppercased, identkey is derived as
`f"{type.code}_{self.external_id}".upper()`, and the insert raises
IntegrityError (modelled as `Except.error`) when another row already holds
the same identkey or the same (external_id, identifier_type) pair.  On
success the save also auto-links the identifier type's groups that the
tracker does not have yet (models.py:645).  newTIRow is the row the save
writes: external_id uppercased, identkey derived. -/
def newTIRow (db : DBState) (tracker : Nat) (code ext : String) : TIRow :=
  { rid := db.nextIdentifier, tracker := tracker, typeCode := code,
    external_id := pyUpper ext,
    identkey := pyUpper (code ++ "_" ++ pyUpper ext) }

def trackerIdentifierSave (db : DBState) (tracker : Nat) (code : String)
    (ext : String) : Except Unit (DBState × TIRow) :=
  if db.identifiers.any (fun r =>
       r.identkey == pyUpper (code ++ "_" ++ pyUpper ext)) ||
     db.identifiers.any (fun r =>
       r.external_id == pyUpper ext && r.typeCode == code)
  then Except.error ()
  else
    Except.ok ({ db with
        identifiers := db.identifiers ++ [newTIRow db tracker code ext],
        nextIdentifier := db.nextIdentifier + 1,
        trackerGroups := db.trackerGroups ++
          ((db.typeGroups.filter (fun tg =>
            tg.1 == code && !(db.trackerGroups.contains (tracker, tg.2)))).map
           (fun tg => (tracker, tg.2))) }, newTIRow db tracker code ext)

/-- `Tracker.objects.create()`: a fresh Tracker row with the model's
column defaults (icon='default', ais_length=0, ais_width=0; other
columns unset, i.e. None). -/
def trackerCreate (db : DBState) : DBState × Nat :=
  let row : TrackerRow :=
    { tid := db.nextTracker,
      fields := [("icon", PyVal.str "default"),
                 ("ais_length", PyVal.int 0),
                 ("ais_width", PyVal.int 0)] }
  ({ db with trackers := db.trackers ++ [row],
             nextTracker := db.nextTracker + 1 }, db.nextTracker)

-- ===== Identifier logic (GpsTrackingUtilDB, util_db.py) =====

/-- `find_tracker_identifier_by_identkey` (util_db.py:57): falsy key →
None, otherwise the in-memory cache is consulted first and a miss falls
back to a durable point lookup (`cache.get(k) or filter(...).first()`). -/
def find_tracker_identifier_by_identkey (st : SysState)
    (identkey : Option String) : Option TIRow :=
  match identkey with
  | Option.none => Option.none
  | some k =>
      if k == "" then Option.none
      else
        match (st.tracker_cache.find? (fun kv => kv.1 == k)).map
            (fun kv => kv.2) with
        | some ti => some ti
        | Option.none => st.db.identifiers.find? (fun r => r.identkey == k)

/-- `create_tracker_identifier` (util_db.py:63).  The identifier-type
lookup raises DoesNotExist for an unknown code (the error escapes this
function — modelled as `Except.error` carrying the unchanged state).  An
IntegrityError from the insert is caught here and answered with the first
existing row for the same (tracker, type), which can be None when the
conflict came from a different tracker's row. -/
def create_tracker_identifier (st : SysState) (tracker : Nat) (code : String)
    (ext : String) : Except SysState (SysState × Option TIRow) :=
  if st.db.types.contains code then
    match trackerIdentifierSave st.db tracker code ext with
    | Except.ok (db', row) => Except.ok ({ st with db := db' }, some row)
    | Except.error _ =>
        Except.ok (st, st.db.identifiers.find?
          (fun r => r.tracker == tracker && r.typeCode == code))
  else Except.error st

/-- Split a string at the first '-' (Python `s.split("-", 1)` with a
match), returning the parts before and after it. -/
def pySplitOnce : List Char → Option (List Char × List Char)
  | [] => Option.none
  | c :: rest =>
      if c = '-' then some ([], rest)
      else (pySplitOnce rest).map (fun p => (c :: p.1, p.2))

/-- Replace every occurrence of a (non-empty) pattern, Python
`s.replace(pat, rep)` over character lists. -/
def pyReplaceList (pat rep : List Char) : List Char → List Char
  | [] => []
  | c :: rest =>
      if pat ≠ [] ∧ pat.isPrefixOf (c :: rest) then
        rep ++ pyReplaceList pat rep (rest.drop (pat.length - 1))
      else c :: pyReplaceList pat rep rest
termination_by s => s.length
decreasing_by
  · simp only [List.length_drop, List.length_cons]; omega
  · simp only [List.length_cons]; omega

/-- Python `s.replace(pat, rep)` on strings. -/
def pyReplace (s pat rep : String) : String :=
  ⟨pyReplaceList pat.data rep.data s.data⟩

/-- `additional_identifiers_from_uniqueId` (util_db.py:93): rewrite ADSB to
ICAO inside the vendor unique id, split once on '-', and when the part
before the dash is a recognized native identity type (DMR being stored
under the DMR_RN code), create that secondary identifier on the tracker
unless its identkey already resolves.  Errors from the nested create
(unknown type code) propagate. -/
def additional_identifiers_from_uniqueId (st : SysState) (uniqueId : String)
    (tracker : Nat) : Except SysState SysState :=
  match pySplitOnce (pyReplace uniqueId "ADSB" "ICAO").data with
  | Option.none => Except.ok st
  | some (p, idc) =>
      if (String.mk p) = "ICAO" ∨ (String.mk p) = "MMSI" ∨
         (String.mk p) = "DMR" ∨ (String.mk p) = "GMS" then
        match find_tracker_identifier_by_identkey st
            (some ((if (String.mk p) = "DMR" then "DMR_RN"
                    else (String.mk p)) ++ "_" ++ (String.mk idc))) with
        | some _ => Except.ok st
        | Option.none =>
            match create_tracker_identifier st tracker
                (if (String.mk p) = "DMR" then "DMR_RN" else (String.mk p))
                (String.mk idc) with
            | Except.ok (st', _) => Except.ok st'
            | Except.error stE => Except.error stE
      else Except.ok st

/-- The hard-coded smartcode conversion table of `tc_group_management`
(util_db.py:110). -/
def tc_group_convert_table : List (String × String) :=
  [("ZZ_TEMP_TC1_6", "camende"), ("ZZ_TEMP_TC1_7", "fwater"),
   ("ZZ_TEMP_TC1_8", "bheijselaar"), ("ZZ_TEMP_TC1_10", "rb_wsc"),
   ("ZZ_TEMP_TC1_36", "rb_hsk"), ("ZZ_TEMP_TC1_42", "essn"),
   ("ZZ_TEMP_TC1_45", "rb_rkj"), ("ZZ_TEMP_TC1_47", "demo"),
   ("ZZ_TEMP_TC1_48", "rb_dhg"), ("ZZ_TEMP_TC1_51", "rb_msr"),
   ("ZZ_TEMP_TC1_52", "knrm_teh"), ("ZZ_TEMP_TC1_53", "knrm_sch"),
   ("ZZ_TEMP_TC1_56", "rb_hhw"), ("ZZ_TEMP_TC1_58", "rb_rkj_mob"),
   ("ZZ_TEMP_TC1_60", "rb_gve"), ("ZZ_TEMP_TC1_69", "rb_waz"),
   ("ZZ_TEMP_TC1_67", "vr_22_zld"),
   ("ZZ_TEMP_TC2_6", "camende"), ("ZZ_TEMP_TC2_7", "fwater"),
   ("ZZ_TEMP_TC2_8", "bheijselaar"), ("ZZ_TEMP_TC2_10", "rb_wsc"),
   ("ZZ_TEMP_TC2_36", "rb_hsk"), ("ZZ_TEMP_TC2_42", "essn"),
   ("ZZ_TEMP_TC2_45", "rb_rkj"), ("ZZ_TEMP_TC2_47", "demo"),
   ("ZZ_TEMP_TC2_48", "rb_dhg"), ("ZZ_TEMP_TC2_51", "rb_msr"),
   ("ZZ_TEMP_TC2_52", "knrm_teh"), ("ZZ_TEMP_TC2_53", "knrm_sch"),
   ("ZZ_TEMP_TC2_56", "rb_hhw"), ("ZZ_TEMP_TC2_58", "rb_rkj_mob"),
   ("ZZ_TEMP_TC2_60", "rb_gve"), ("ZZ_TEMP_TC2_65", "rb_waz")]

/-- `tc_group_management` (util_db.py:106): only acts on trackers with no
group memberships yet; derives the legacy name, converts it through the
table, gets or creates the TrackerGroup by smartcode and adds the tracker
to it.  Touches groups and memberships only. -/
def tc_group_management (st : SysState) (tc_group : PyVal)
    (identtype : String) (tracker : Nat) : SysState :=
  if st.db.trackerGroups.any (fun tg => tg.1 == tracker) then st
  else
    let name := "ZZ_TEMP_" ++ identtype ++ "_" ++ pyStr tc_group
    let code :=
      match (tc_group_convert_table.find? (fun kv => kv.1 == name)).map
          (fun kv => kv.2) with
      | some c => c
      | Option.none => pyStr tc_group
    match st.db.groups.find? (fun g => g.2 == code) with
    | some g =>
        { st with db := { st.db with
            trackerGroups := st.db.trackerGroups ++ [(tracker, g.1)] } }
    | Option.none =>
        { st with db := { st.db with
            groups := st.db.groups ++ [(st.db.nextGroup, code)],
            nextGroup := st.db.nextGroup + 1,
            trackerGroups := st.db.trackerGroups ++
              [(tracker, st.db.nextGroup)] } }

/-- `(v := identity.get(k)) and v.upper()` (util_db.py:188): a falsy value
(absent, None, "", 0, …) behaves as a missing field everywhere downstream
and is normalized to Option.none; a truthy non-string raises
AttributeError on `.upper()` (Except.error), a truthy string is
uppercased. -/
def upperField (ikvs : List (String × PyVal)) (k : String) :
    Except Unit (Option String) :=
  match dictGet ikvs k with
  | Option.none => Except.ok Option.none
  | some v =>
      if truthy v then
        match v with
        | PyVal.str s => Except.ok (some (pyUpper s))
        | _ => Except.error ()
      else Except.ok Option.none

/-- The four-way branch of `get_or_create_tracker_identifier`
(util_db.py:204-222) on which of the two candidate lookups hit, after the
normalization stage.  Returns the state, the resolved tracker and the
declared-key identifier variable (`ti_identkey`) as returned by the
source.  Errors carry the state at the raise point: the final `else`
dereferences `ti_identkey.tracker`, which raises AttributeError whenever
the declared lookup missed. -/
def resolveBranch (st : SysState) (ti_identkey ti_tc_uid : Option TIRow)
    (identkey? tc_unique_id? : Option String) (identtype identid : String) :
    Except SysState (SysState × Option Nat × Option TIRow) :=
  match ti_identkey, ti_tc_uid with
  | some ti, Option.none =>
      match tc_unique_id? with
      | some tcu =>
          -- declared hit, vendor id supplied but not yet linked
          match create_tracker_identifier st ti.tracker "TCUID" tcu with
          | Except.error stE => Except.error stE
          | Except.ok (st1, _) =>
              match additional_identifiers_from_uniqueId st1 tcu ti.tracker with
              | Except.error stE => Except.error stE
              | Except.ok st2 => Except.ok (st2, some ti.tracker, some ti)
      | Option.none => Except.ok (st, some ti.tracker, some ti)
  | Option.none, some tv =>
      match identkey? with
      | some _ =>
          -- vendor-alias hit, declared key supplied but not yet linked
          match create_tracker_identifier st tv.tracker identtype identid with
          | Except.error stE => Except.error stE
          | Except.ok (st1, ti') => Except.ok (st1, some tv.tracker, ti')
      | Option.none => Except.error st
  | Option.none, Option.none =>
      if identkey?.isSome || tc_unique_id?.isSome then
        -- both miss: first sighting, create a brand-new tracker
        let (db', tid) := trackerCreate st.db
        let st0 : SysState := { st with db := db' }
        match (if identkey?.isSome then
                create_tracker_identifier st0 tid identtype identid
               else Except.ok (st0, Option.none)) with
        | Except.error stE => Except.error stE
        | Except.ok (st1, ti') =>
            match tc_unique_id? with
            | some tcu =>
                match create_tracker_identifier st1 tid "TCUID" tcu with
                | Except.error stE => Except.error stE
                | Except.ok (st2, _) =>
                    match additional_identifiers_from_uniqueId st2 tcu tid with
                    | Except.error stE => Except.error stE
                    | Except.ok st3 => Except.ok (st3, some tid, ti')
            | Option.none => Except.ok (st1, some tid, ti')
      else Except.error st
  | some ti, some _ => Except.ok (st, some ti.tracker, some ti)

/-- The part of get_or_create_tracker_identifier after the identity
fields have been extracted and uppercased (util_db.py:193-226): require
identtype and identid, run the four-way branch, apply the legacy group
management, and catch any exception by answering with the state mutated
so far and None. -/
def get_or_create_core (st : SysState)
    (identkey? tc_unique_id? identtype? identid? : Option String)
    (tc_group : PyVal) : SysState × Option TIRow :=
  match identtype?, identid? with
  | some identtype, some identid =>
      (match resolveBranch st
          (find_tracker_identifier_by_identkey st identkey?)
          (find_tracker_identifier_by_identkey st
            (tc_unique_id?.map (fun u => "TCUID_" ++ u)))
          identkey? tc_unique_id? identtype identid with
       | Except.error stE => (stE, Option.none)
       | Except.ok (st', tracker?, ti') =>
           match tracker? with
           | some t =>
               if truthy tc_group then
                 (tc_group_management st' tc_group identtype t, ti')
               else (st', ti')
           | Option.none => (st', ti'))
  | _, _ => (st, Option.none)

/-- `get_or_create_tracker_identifier` (util_db.py:186).  The whole body
runs under a catch-all (DoesNotExist and Exception are both answered with
None), so the function itself is total: an exception yields the state the
body had mutated so far, paired with None.  Note that declared type and
external id are required (util_db.py:193) before any candidate key is
even looked up. -/
def get_or_create_tracker_identifier (st : SysState) (identity : PyVal)
    (tc_group : PyVal) : SysState × Option TIRow :=
  match identity with
  | PyVal.dict ikvs =>
      match upperField ikvs "identkey", upperField ikvs "tcUniqueId",
            upperField ikvs "identtype", upperField ikvs "identid" with
      | Except.ok identkey?, Except.ok tc_unique_id?,
        Except.ok identtype?, Except.ok identid? =>
          get_or_create_core st identkey? tc_unique_id? identtype?
            identid? tc_group
      | _, _, _, _ => (st, Option.none)
  | _ => (st, Option.none)

-- ===== Ingestion pipeline (process_mqtt_message, util_db.py:237) =====

/-- Python exception kinds distinguished by the handlers in
process_mqtt_message: the inner `except (KeyError, ValueError)` catches
the first two, AttributeError/TypeError escape to the outer catch-all. -/
inductive PyErr where
  | key
  | value
  | type
  | attr
deriving Repr, DecidableEq

/-- Python `float(v)` restricted to the integral values this model
carries: numbers parse to themselves, numeric strings parse (ValueError
otherwise), None and containers raise TypeError. -/
def pyFloat : PyVal → Except PyErr Int
  | PyVal.int n => Except.ok n
  | PyVal.bool b => Except.ok (if b then 1 else 0)
  | PyVal.str s =>
      match s.toInt? with
      | some n => Except.ok n
      | Option.none => Except.error PyErr.value
  | _ => Except.error PyErr.type

/-- The `try` block of util_db.py:273-278: build the GEOS point from
data['longitude'] / data['latitude'] and fetch the mapped
position_timestamp.  A missing coordinate raises KeyError, an unparsable
one ValueError; when `formated` is None the `.get` on it raises
AttributeError, which the inner handler does not catch. -/
def positionFields (dkvs : List (String × PyVal))
    (formated : Option (List (String × PyVal))) :
    Except PyErr (Option (Int × Int) × Option PyVal) := do
  let lonv ← match dictGet dkvs "longitude" with
    | some v => Except.ok v
    | Option.none => Except.error PyErr.key
  let lon ← pyFloat lonv
  let latv ← match dictGet dkvs "latitude" with
    | some v => Except.ok v
    | Option.none => Except.error PyErr.key
  let lat ← pyFloat latv
  match formated with
  | Option.none => Except.error PyErr.attr
  | some m =>
      let pts := match dictGet m "position_timestamp" with
        | some v => if truthy v then some v else Option.none
        | Option.none => Option.none
      Except.ok (some (lon, lat), pts)

/-- The positional recency group of the state merge (util_db.py:302). -/
def posGroup : List String :=
  ["altitude", "speed", "course", "position", "position_timestamp"]

/-- One iteration of the merge loop (util_db.py:300-307): the incoming
field k=v is written into the pending entry when k is new, or the
positional-group recency test passes, or the meta recency test passes —
the disjuncts evaluated in Python's short-circuit order, so a TypeError
from a malformed stored timestamp (Except.error) surfaces exactly where
Python would raise it. -/
def mergeField (existing : List (String × PyVal)) (k : String) (v : PyVal)
    (position_ts meta_ts : PyVal) : Except Unit (List (String × PyVal)) :=
  if (dictGet existing k).isNone then Except.ok (dictSet existing k v)
  else
    match (if posGroup.contains k then
            match dictGet existing "position_timestamp" with
            | Option.none => Except.ok true
            | some PyVal.none => Except.ok true
            | some pv => pyLE pv position_ts
           else Except.ok false : Except Unit Bool) with
    | Except.error e => Except.error e
    | Except.ok true => Except.ok (dictSet existing k v)
    | Except.ok false =>
        match (match dictGet existing "meta_timestamp" with
               | Option.none => Except.ok true
               | some PyVal.none => Except.ok true
               | some mv => pyLE mv meta_ts : Except Unit Bool) with
        | Except.error e => Except.error e
        | Except.ok true => Except.ok (dictSet existing k v)
        | Except.ok false => Except.ok existing

/-- The merge loop over the incoming entry's items.  The Python loop
mutates `existing` (the dict object stored in the buffer) in place, so an
exception mid-loop leaves the partially merged entry behind: the error
value carries it. -/
def mergeLoop (existing : List (String × PyVal))
    (items : List (String × PyVal)) (position_ts meta_ts : PyVal) :
    Except (List (String × PyVal)) (List (String × PyVal)) :=
  match items with
  | [] => Except.ok existing
  | (k, v) :: rest =>
      match mergeField existing k v position_ts meta_ts with
      | Except.ok ex' => mergeLoop ex' rest position_ts meta_ts
      | Except.error _ => Except.error existing

/-- Buffer write `tracker_buffer[tid] = entry` (same replace-or-append
semantics as a dict keyed by tracker id). -/
def bufSet (buf : List (Nat × List (String × PyVal))) (tid : Nat)
    (entry : List (String × PyVal)) : List (Nat × List (String × PyVal)) :=
  if buf.any (fun kv => kv.1 == tid) then
    buf.map (fun kv => if kv.1 == tid then (tid, entry) else kv)
  else buf ++ [(tid, entry)]

/-- The state-merge step of process_mqtt_message (util_db.py:284-309),
entered when `formated` is truthy: copy it, add the point when the message
had one, derive the two incoming recency stamps (`... or received`), and
either install the entry verbatim for an unknown tracker (tagged with its
id) or fold the merge loop over it.  A TypeError escaping the loop leaves
the partial entry in the buffer (the outer handler only logs). -/
def mergeIntoBuffer (st : SysState) (formated : List (String × PyVal))
    (position : Option (Int × Int)) (tid : Nat) (received : PyVal) :
    SysState :=
  let tracker_entry :=
    match position with
    | some p => dictSet formated "position" (PyVal.point p.1 p.2)
    | Option.none => formated
  let position_ts := pyOr (dictGet tracker_entry "position_timestamp") received
  let meta_ts := pyOr (dictGet tracker_entry "meta_timestamp") received
  let existing? := (st.tracker_buffer.find? (fun kv => kv.1 == tid)).map
    (fun kv => kv.2)
  let fresh := dictSet tracker_entry "id" (PyVal.uuid tid)
  match existing? with
  | Option.none =>
      { st with tracker_buffer := bufSet st.tracker_buffer tid fresh }
  | some ex =>
      if ex.isEmpty then
        -- `if not existing` is a truthiness test: an empty entry counts
        -- as absent
        { st with tracker_buffer := bufSet st.tracker_buffer tid fresh }
      else
        match mergeLoop ex tracker_entry position_ts meta_ts with
        | Except.ok ex' =>
            { st with tracker_buffer := bufSet st.tracker_buffer tid ex' }
        | Except.error exP =>
            { st with tracker_buffer := bufSet st.tracker_buffer tid exP }

/-- The tail of process_mqtt_message after identity resolution
(util_db.py:263-309): build the message entry, enqueue it, and merge the
mapped fields into the state buffer when any were mapped. -/
def afterQueue (st : SysState) (ti : TIRow)
    (formated : Option (List (String × PyVal))) (pos : Option (Int × Int))
    (pts : Option PyVal) (msgtype content raw received msghash : PyVal) :
    SysState :=
  let entry : MsgRow :=
    { tracker_identifier := ti.rid, msgtype := msgtype, content := content,
      raw := raw, dbcall := formated, message_timestamp := received,
      sha256_key := msghash, position := pos, position_timestamp := pts }
  let st2 := { st with message_queue := st.message_queue ++ [entry] }
  match formated with
  | some m =>
      if m.isEmpty then st2 else mergeIntoBuffer st2 m pos ti.tracker received
  | Option.none => st2

/-- The tail of process_mqtt_message once the payload has parsed to an
object and the field mapper has run (util_db.py:250-309): check the
required envelope fields, resolve the identity, enqueue and merge. -/
def processEnvelope (st : SysState) (mkvs : List (String × PyVal))
    (formated : Option (List (String × PyVal))) : SysState :=
  let data := (dictGet mkvs "data").getD (PyVal.dict [])
  let msghash := (dictGet mkvs "msghash").getD PyVal.none
  let received := (dictGet mkvs "received").getD PyVal.none
  let msgtype := (dictGet mkvs "msgtype").getD PyVal.none
  let identity := (dictGet mkvs "identity").getD PyVal.none
  let raw := (dictGet mkvs "raw").getD PyVal.none
  if !(truthy msghash && truthy received) || !(truthy identity)
  then st
  else
    let dkvs := match data with
      | PyVal.dict l => l
      | _ => []
    let r := get_or_create_tracker_identifier st identity
      ((dictGet dkvs "tc_group").getD PyVal.none)
    match r.2 with
    | Option.none => r.1
    | some ti =>
        match positionFields dkvs formated with
        | Except.error PyErr.key =>
            afterQueue r.1 ti formated Option.none Option.none
              msgtype data raw received msghash
        | Except.error PyErr.value =>
            afterQueue r.1 ti formated Option.none Option.none
              msgtype data raw received msghash
        | Except.error _ => r.1
        | Except.ok (pos, pts) =>
            afterQueue r.1 ti formated pos pts
              msgtype data raw received msghash

/-- `process_mqtt_message` (util_db.py:237), the pipeline entry point, on
the result of `json.loads` (Option.none models a parse failure).  The
whole body runs inside a catch-all, so every exception path below simply
yields the state mutated so far and the entry point never raises:
the function is total by construction. -/
def process_mqtt_message (mapping : List (String × Option String))
    (st : SysState) (parsed : Option PyVal) : SysState :=
  match parsed with
  | Option.none => st
  | some (PyVal.dict mkvs) =>
      match remap_keys ((dictGet mkvs "data").getD (PyVal.dict []))
          mapping with
      | Except.error _ => st
      | Except.ok (formated, _) => processEnvelope st mkvs formated
  | some _ => st

-- ===== Flush (save_buffer_to_db, util_db.py:315) =====

/-- `{f.name for f in Tracker._meta.get_fields()}`: the concrete column
names of the Tracker model (models.py:487-525) plus the two relation
names Django's get_fields also reports (the m2m field and the reverse
accessor of TrackerIdentifier.tracker). -/
def valid_fields : List String :=
  ["id", "custom_name", "icon", "standplaats", "meta_timestamp",
   "alarm_type", "gms_status", "ais_type", "ais_name", "ais_callsign",
   "ais_length", "ais_width", "ais_status", "adsb_type",
   "adsb_registration", "adsb_callsign", "altitude", "speed", "course",
   "position", "position_timestamp", "groups", "identifiers"]

/-- The skip test of util_db.py:367: `val is None or (isinstance(val, str)
and val.strip() == "")`. -/
def pyEmptyVal : PyVal → Bool
  | PyVal.none => true
  | PyVal.str s => pyStrip s == ""
  | _ => false

/-- `current_value is None` (util_db.py:373). -/
def isNoneVal : PyVal → Bool
  | PyVal.none => true
  | _ => false

/-- `str(current).strip() == ""` for the fill-only test (util_db.py:373).
Python's str() of any non-string object reaching this point (numbers,
points, UUIDs — None is handled by the preceding `is None`) is a
non-blank rendering, so only string values can be blank. -/
def pyStrBlank : PyVal → Bool
  | PyVal.str s => pyStrip s == ""
  | _ => false

/-- The body of the per-field update loop of save_buffer_to_db
(util_db.py:362-379) on one (key, val) item: skip the id key, unknown
attributes and empty values; custom_name and icon are fill-only
(overwritten only when the current value is None or blank); every other
field is overwritten when it differs.  Returns the updated attribute map
and whether the field was added to `changed`. -/
def applyFieldUpdate (fields : List (String × PyVal)) (k : String)
    (v : PyVal) : List (String × PyVal) × Bool :=
  if k == "id" || !(valid_fields.contains k) then (fields, false)
  else if pyEmptyVal v then (fields, false)
  else if k == "custom_name" || k == "icon" then
    if isNoneVal ((dictGet fields k).getD PyVal.none) ||
       pyStrBlank ((dictGet fields k).getD PyVal.none) then
      (dictSet fields k v, true)
    else (fields, false)
  else
    if pyEq ((dictGet fields k).getD PyVal.none) v then (fields, false)
    else (dictSet fields k v, true)

/-- One step of the field loop: apply the (key, val) update and record the
key when the field changed. -/
def updateStep (acc : TrackerRow × List String) (kv : String × PyVal) :
    TrackerRow × List String :=
  ({ acc.1 with fields := (applyFieldUpdate acc.1.fields kv.1 kv.2).1 },
   if (applyFieldUpdate acc.1.fields kv.1 kv.2).2 then acc.2 ++ [kv.1]
   else acc.2)

/-- The full field loop of save_buffer_to_db over one pending entry,
collecting the changed keys. -/
def updateTrackerFromItem (row : TrackerRow)
    (item : List (String × PyVal)) : TrackerRow × List String :=
  item.foldl updateStep (row, [])

/-- The 'id' tag a pending entry was stamped with when it entered the
buffer (`item['id']`; every entry built by the pipeline carries it). -/
def getItemId (item : List (String × PyVal)) : Option Nat :=
  match dictGet item "id" with
  | some (PyVal.uuid n) => some n
  | _ => Option.none

/-- One insert of the conflict-tolerant bulk create: skipped when a row
with the same content-hash primary key is already stored. -/
def msgInsertStep (d : DBState) (m : MsgRow) : DBState :=
  if d.messages.any (fun r => pyEq r.sha256_key m.sha256_key) then d
  else { d with messages := d.messages ++ [m] }

/-- The TrackerMessage half of save_buffer_to_db (util_db.py:319-331):
`bulk_create(..., ignore_conflicts=True)` inserts each drained entry
unless a row with the same content-hash primary key already exists
(conflicts inside the batch are ignored the same way). -/
def flushMessages (db : DBState) (items : List MsgRow) : DBState :=
  items.foldl msgInsertStep db

/-- The Tracker half of save_buffer_to_db (util_db.py:339-404): for each
drained pending entry, find the durable row (missing ids are logged and
skipped), apply the field loop, and persist rows with a non-empty changed
set.  The source groups updated rows by changed-field set and issues one
bulk update per group with exactly those columns; since the field loop
changed exactly those attributes, the durable effect equals storing the
updated row, which is what this model does (the per-record fallback only
fires on database errors, which the model does not inject).  This is the
per-entry step; flushTrackers folds it over the drained entries. -/
def trackerFlushStep (d : DBState) (item : List (String × PyVal)) :
    DBState :=
  match getItemId item with
  | Option.none => d
  | some tid =>
      match d.trackers.find? (fun t => t.tid == tid) with
      | Option.none => d
      | some row =>
          if (updateTrackerFromItem row item).2.isEmpty then d
          else { d with trackers := d.trackers.map (fun t =>
              if t.tid == tid then (updateTrackerFromItem row item).1 else t) }

def flushTrackers (db : DBState) (items : List (List (String × PyVal))) :
    DBState :=
  items.foldl trackerFlushStep db

/-- `save_buffer_to_db` (util_db.py:315): drain the message queue and bulk
insert with conflicts ignored, then drain the state merge buffer and apply
the grouped tracker updates. -/
def save_buffer_to_db (st : SysState) : SysState :=
  let db1 := flushMessages st.db st.message_queue
  let db2 := flushTrackers db1 (st.tracker_buffer.map (fun kv => kv.2))
  { st with db := db2, message_queue := [], tracker_buffer := [] }

/-- `refresh_tracker_cache` (util_db.py:165): rebuild the identity cache
wholesale from the durable identifiers and swap it in. -/
def refresh_tracker_cache (st : SysState) : SysState :=
  { st with tracker_cache := st.db.identifiers.map (fun r => (r.identkey, r)) }

-- ===== Derived notions used by the statements =====

/-- The identkey column is derived by TrackerIdentifier.save, so every
durable identifier row satisfies this shape; the resolver theorems assume
it of the starting store. -/
def identkeysDerived (db : DBState) : Prop :=
  ∀ r ∈ db.identifiers, r.identkey = pyUpper (r.typeCode ++ "_" ++ r.external_id)

/-- Global uniqueness of the derived identkey column. -/
def identkeysUnique (db : DBState) : Prop :=
  (db.identifiers.map (fun r => r.identkey)).Nodup

/-- Uniqueness of the (external_id, identifier_type) pair. -/
def pairsUnique (db : DBState) : Prop :=
  (db.identifiers.map (fun r => (r.external_id, r.typeCode))).Nodup

/-- The value the flush's field loop leaves at key k as a function of the
durable value found there (the per-key summary of applyFieldUpdate). -/
def fieldUpdateResult (k : String) (v : PyVal) (cur : Option PyVal) :
    Option PyVal :=
  if k == "id" || !(valid_fields.contains k) then cur
  else if pyEmptyVal v then cur
  else if k == "custom_name" || k == "icon" then
    if isNoneVal (cur.getD PyVal.none) || pyStrBlank (cur.getD PyVal.none)
    then some v else cur
  else if pyEq (cur.getD PyVal.none) v then cur else some v

-- ===== Concrete fixtures for the closed theorems =====

/-- An empty durable store carrying the given identifier-type vocabulary. -/
def dbWithTypes (ts : List String) : DBState :=
  { types := ts, typeGroups := [], trackers := [], nextTracker := 0,
    identifiers := [], nextIdentifier := 0, groups := [], nextGroup := 0,
    trackerGroups := [], messages := [] }

/-- A fresh process over the given store: empty cache and buffers. -/
def stOf (db : DBState) : SysState :=
  { db := db, tracker_cache := [], tracker_buffer := [],
    message_queue := [] }

/-- Decoder-field translation table used by the merge scenario: the
decoder's spd/pts keys feed the speed and position_timestamp columns. -/
def mappingFix : List (String × Option String) :=
  [("spd", some "speed"), ("pts", some "position_timestamp")]

/-- First scenario envelope: speed 5 at position_timestamp 100. -/
def envSpeed5 : PyVal :=
  PyVal.dict
    [("msghash", PyVal.str "H1"), ("received", PyVal.int 1000),
     ("msgtype", PyVal.str "t"),
     ("identity", PyVal.dict
        [("identkey", PyVal.str "MMSI_123"), ("identtype", PyVal.str "MMSI"),
         ("identid", PyVal.str "123")]),
     ("data", PyVal.dict [("spd", PyVal.int 5), ("pts", PyVal.int 100)])]

/-- Second scenario envelope, same tracker: speed 3 at the older
position_timestamp 50. -/
def envSpeed3 : PyVal :=
  PyVal.dict
    [("msghash", PyVal.str "H2"), ("received", PyVal.int 2000),
     ("msgtype", PyVal.str "t"),
     ("identity", PyVal.dict
        [("identkey", PyVal.str "MMSI_123"), ("identtype", PyVal.str "MMSI"),
         ("identid", PyVal.str "123")]),
     ("data", PyVal.dict [("spd", PyVal.int 3), ("pts", PyVal.int 50)])]

/-- The buffer state after the two scenario messages have been processed
in order against a fresh store that knows the MMSI type. -/
def mergeScenario : SysState :=
  process_mqtt_message mappingFix
    (process_mqtt_message mappingFix (stOf (dbWithTypes ["MMSI"]))
      (some envSpeed5))
    (some envSpeed3)

/-- Result of creating an identifier for tracker 0 against a store that
knows the MMSI type (fixture for the cache-insertion claim). -/
def createNoCache : Except SysState (SysState × Option TIRow) :=
  create_tracker_identifier (stOf (dbWithTypes ["MMSI"])) 0 "MMSI" "123"

/-- The state createNoCache ends in. -/
def createNoCacheState : SysState :=
  match createNoCache with
  | Except.ok (st, _) => st
  | Except.error st => st

/-- A vendor-only identity: only the tcUniqueId candidate key supplied. -/
def vendorOnlyIdentity : PyVal :=
  PyVal.dict [("tcUniqueId", PyVal.str "XYZ1")]

/-- An identity payload carrying all four fields. -/
def identityEntries (ik tcu ty idv : String) : List (String × PyVal) :=
  [("identkey", PyVal.str ik), ("tcUniqueId", PyVal.str tcu),
   ("identtype", PyVal.str ty), ("identid", PyVal.str idv)]

/-- The identity object carrying all four fields. -/
def identityDict (ik tcu ty idv : String) : PyVal :=
  PyVal.dict (identityEntries ik tcu ty idv)

/-- An identity payload without a vendor unique id. -/
def identityEntriesNoTc (ik ty idv : String) : List (String × PyVal) :=
  [("identkey", PyVal.str ik), ("identtype", PyVal.str ty),
   ("identid", PyVal.str idv)]

/-- The identity object without a vendor unique id. -/
def identityDictNoTc (ik ty idv : String) : PyVal :=
  PyVal.dict (identityEntriesNoTc ik ty idv)

/-- The row saved when binding mmsi "ab" to tracker 3 on an empty store
(witness fixture). -/
def rowMMSIab : TIRow :=
  { rid := 0, tracker := 3, typeCode := "MMSI", external_id := "AB",
    identkey := "MMSI_AB" }

/-- Store holding exactly rowMMSIab (witness fixture). -/
def dbAfterMMSIab : DBState :=
  { dbWithTypes ["MMSI"] with
    identifiers := [rowMMSIab], nextIdentifier := 1 }

/-- A durable tracker row named "Bar" (fixture). -/
def rowBar : TrackerRow :=
  { tid := 0, fields := [("custom_name", PyVal.str "Bar")] }

/-- The store holding exactly rowBar (fixture). -/
def dbBar : DBState :=
  { dbWithTypes ["MMSI"] with trackers := [rowBar] }

/-- rowBar after the fixture flush gave it a speed (fixture). -/
def rowBarSpeed : TrackerRow :=
  { tid := 0, fields := [("custom_name", PyVal.str "Bar"),
    ("speed", PyVal.int 2)] }

/-- A process state with one durable tracker (custom_name "Bar") and one
pending entry carrying a new speed and a blank custom_name (fixture for
the flush frame claims). -/
def stFlushFix : SysState :=
  { db := dbBar, tracker_cache := [], message_queue := [],
    tracker_buffer := [(0, [("id", PyVal.uuid 0), ("speed", PyVal.int 2),
      ("custom_name", PyVal.str "")])] }

/-- An identifier row binding MMSI 123 to tracker 5 (fixture for the
cross-alias claims). -/
def rowC5 : TIRow :=
  { rid := 0, tracker := 5, typeCode := "MMSI", external_id := "123",
    identkey := "MMSI_123" }

/-- Store that already knows rowC5 (fixture). -/
def dbC5 : DBState :=
  { dbWithTypes ["MMSI", "TCUID"] with
    identifiers := [rowC5], nextIdentifier := 1 }

/-- Process state over dbC5 with empty cache and buffers (fixture). -/
def stC5 : SysState := stOf dbC5

/-- A message entry (fixture for the dedup claim). -/
def msgFix : MsgRow :=
  { tracker_identifier := 0, msgtype := PyVal.str "t",
    content := PyVal.dict [], raw := PyVal.none, dbcall := Option.none,
    message_timestamp := PyVal.int 1, sha256_key := PyVal.str "H",
    position := Option.none, position_timestamp := Option.none }

/-- A process state whose queue holds the same message twice (fixture). -/
def stQueueFix : SysState :=
  { db := dbWithTypes ["MMSI"], tracker_cache := [], tracker_buffer := [],
    message_queue := [msgFix, msgFix] }

/-- Store after binding ICAO ABC to tracker 7 (fixture showing one
tracker owning identifiers under several types). -/
def dbTwoTypes : DBState :=
  match trackerIdentifierSave (dbWithTypes ["ICAO", "MMSI"]) 7 "ICAO" "ABC" with
  | Except.ok (d, _) => d
  | Except.error _ => dbWithTypes []

-- ===== Helper lemmas =====

theorem pyUpper_eq_empty_iff (s : String) : pyUpper s = "" ↔ s = "" := by
  cases s with
  | mk l => simp [pyUpper, String.ext_iff]

theorem pyUpper_append (a b : String) :
    pyUpper (a ++ b) = pyUpper a ++ pyUpper b := by
  cases a with
  | mk as =>
    cases b with
    | mk bs =>
      show pyUpper ⟨as ++ bs⟩ = _
      simp [pyUpper, String.ext_iff]

theorem find?_map_setEntry (k : String) (v : PyVal) :
    ∀ f : List (String × PyVal), f.any (fun kv => kv.1 == k) = true →
      List.find? (fun kv => kv.1 == k)
        (f.map (fun kv => if kv.1 == k then (k, v) else kv)) = some (k, v) := by
  intro f
  induction f with
  | nil => intro h; simp at h
  | cons a t ih =>
    intro h
    simp only [List.map_cons]
    by_cases ha : (a.1 == k) = true
    · rw [if_pos ha]
      rw [List.find?_cons_of_pos _ (by simp)]
    · rw [if_neg ha]
      rw [List.find?_cons_of_neg _ (by simpa using ha)]
      apply ih
      simp only [List.any_cons, Bool.or_eq_true] at h
      exact h.resolve_left ha

theorem find?_map_setEntry_ne {k k' : String} (hne : k' ≠ k) (v : PyVal) :
    ∀ f : List (String × PyVal),
      List.find? (fun kv => kv.1 == k)
        (f.map (fun kv => if kv.1 == k' then (k', v) else kv)) =
      List.find? (fun kv => kv.1 == k) f := by
  intro f
  induction f with
  | nil => rfl
  | cons a t ih =>
    simp only [List.map_cons]
    by_cases ha : (a.1 == k') = true
    · have ha' : a.1 = k' := by simpa using ha
      rw [if_pos ha]
      rw [List.find?_cons_of_neg _ (by simp [hne])]
      rw [List.find?_cons_of_neg _ (by simp [ha', hne])]
      exact ih
    · rw [if_neg ha]
      by_cases hak : (a.1 == k) = true
      · rw [List.find?_cons_of_pos (p := fun kv : String × PyVal => kv.1 == k)
              _ hak,
            List.find?_cons_of_pos (p := fun kv : String × PyVal => kv.1 == k)
              _ hak]
      · rw [List.find?_cons_of_neg (p := fun kv : String × PyVal => kv.1 == k)
              _ (by simpa using hak),
            List.find?_cons_of_neg (p := fun kv : String × PyVal => kv.1 == k)
              _ (by simpa using hak)]
        exact ih

theorem dictGet_dictSet_self (f : List (String × PyVal)) (k : String)
    (v : PyVal) : dictGet (dictSet f k v) k = some v := by
  unfold dictGet dictSet
  split
  · next h => rw [find?_map_setEntry k v f h]; rfl
  · next h =>
    rw [List.find?_append]
    have hnone : List.find? (fun kv => kv.1 == k) f = Option.none := by
      apply List.find?_eq_none.mpr
      intro x hx hpx
      exact h (List.any_eq_true.mpr ⟨x, hx, hpx⟩)
    simp [hnone, List.find?_cons]

theorem dictGet_dictSet_ne (f : List (String × PyVal)) {k k' : String}
    (hne : k' ≠ k) (v : PyVal) :
    dictGet (dictSet f k' v) k = dictGet f k := by
  unfold dictGet dictSet
  split
  · rw [find?_map_setEntry_ne hne v f]
  · rw [List.find?_append]
    have : (k' == k) = false := by simp [hne]
    simp [List.find?_cons, this]

-- ===== C4: field mapper behavior on unmapped keys =====

theorem remapStep_snd_of_mapped {mapping : List (String × Option String)}
    {a : String × PyVal} (h : (mapLookup mapping a.1).isSome = true)
    (acc : List (String × PyVal) × List String) :
    (remapStep mapping acc a).2 = acc.2 := by
  unfold remapStep
  cases hm : mapLookup mapping a.1 with
  | none => rw [hm] at h; simp at h
  | some nk => cases nk <;> cases ha : a.2 <;> simp

theorem remapStep_of_unmapped {mapping : List (String × Option String)}
    {a : String × PyVal} (h : mapLookup mapping a.1 = Option.none)
    (acc : List (String × PyVal) × List String) :
    remapStep mapping acc a = (acc.1, acc.2 ++ [a.1]) := by
  unfold remapStep
  rw [h]

theorem remapFold_snd (mapping : List (String × Option String)) :
    ∀ (flat : List (String × PyVal))
      (acc : List (String × PyVal) × List String),
      (flat.foldl (remapStep mapping) acc).2 =
        acc.2 ++ (flat.filter
          (fun kv => (mapLookup mapping kv.1).isNone)).map (fun kv => kv.1) := by
  intro flat
  induction flat with
  | nil => intro acc; simp
  | cons a t ih =>
    intro acc
    simp only [List.foldl_cons]
    rw [ih]
    cases hm : mapLookup mapping a.1 with
    | none =>
        rw [remapStep_of_unmapped hm]
        simp [List.filter_cons, hm]
    | some nk =>
        rw [remapStep_snd_of_mapped (by simp [hm])]
        simp [List.filter_cons, hm]

theorem remapFold_fst_all_unmapped (mapping : List (String × Option String)) :
    ∀ (flat : List (String × PyVal))
      (acc : List (String × PyVal) × List String),
      (∀ kv ∈ flat, mapLookup mapping kv.1 = Option.none) →
      (flat.foldl (remapStep mapping) acc).1 = acc.1 := by
  intro flat
  induction flat with
  | nil => intro acc _; rfl
  | cons a t ih =>
    intro acc h
    simp only [List.foldl_cons]
    rw [remapStep_of_unmapped (h a (by simp))]
    exact ih _ (fun kv hkv => h kv (by simp [hkv]))

/-- C4 (amended): the Field Mapper raises no error for unmapped keys — for
every dict payload remap_keys returns a result, the flattened keys absent
from the translation table are exactly the unmapped list, and when no key
maps the normalized half of the result is None (Python None, not an empty
map and not an exception), which the pipeline's caller treats as a falsy
mapping result. -/
theorem remap_keys_unmapped_total (kvs : List (String × PyVal))
    (mapping : List (String × Option String)) :
    (∃ r u, remap_keys (PyVal.dict kvs) mapping = Except.ok (r, u) ∧
       u = (((flatten_multilevel_root (PyVal.dict kvs)).getD []).filter
             (fun kv => (mapLookup mapping kv.1).isNone)).map
           (fun kv => kv.1)) ∧
    ((∀ kv ∈ (flatten_multilevel_root (PyVal.dict kvs)).getD [],
        mapLookup mapping kv.1 = Option.none) →
      remap_keys (PyVal.dict kvs) mapping =
        Except.ok (Option.none,
          ((flatten_multilevel_root (PyVal.dict kvs)).getD []).map
            (fun kv => kv.1))) := by
  have hroot : (flatten_multilevel_root (PyVal.dict kvs)).getD [] =
      (flatten_multilevel (PyVal.dict kvs) "").foldl
        (fun acc kv => dictSet acc kv.1 kv.2) [] := rfl
  have heval : remap_keys (PyVal.dict kvs) mapping =
      (if (((flatten_multilevel (PyVal.dict kvs) "").foldl
              (fun acc kv => dictSet acc kv.1 kv.2) []).foldl
              (remapStep mapping) ([], [])).1.isEmpty
       then Except.ok (Option.none,
              (((flatten_multilevel (PyVal.dict kvs) "").foldl
                (fun acc kv => dictSet acc kv.1 kv.2) []).foldl
                (remapStep mapping) ([], [])).2)
       else Except.ok (some (((flatten_multilevel (PyVal.dict kvs) "").foldl
                (fun acc kv => dictSet acc kv.1 kv.2) []).foldl
                (remapStep mapping) ([], [])).1,
              (((flatten_multilevel (PyVal.dict kvs) "").foldl
                (fun acc kv => dictSet acc kv.1 kv.2) []).foldl
                (remapStep mapping) ([], [])).2)) := rfl
  rw [hroot, heval]
  set F := (flatten_multilevel (PyVal.dict kvs) "").foldl
    (fun acc kv => dictSet acc kv.1 kv.2) [] with hF
  have hu : (F.foldl (remapStep mapping) ([], [])).2 =
      (F.filter (fun kv => (mapLookup mapping kv.1).isNone)).map
        (fun kv => kv.1) := by
    rw [remapFold_snd]; simp
  constructor
  · by_cases he : (F.foldl (remapStep mapping) ([], [])).1.isEmpty = true
    · exact ⟨Option.none, (F.foldl (remapStep mapping) ([], [])).2,
        by rw [if_pos he], hu⟩
    · exact ⟨some (F.foldl (remapStep mapping) ([], [])).1,
        (F.foldl (remapStep mapping) ([], [])).2,
        by rw [if_neg (by simpa using he)], hu⟩
  · intro hall
    have h1 : (F.foldl (remapStep mapping) ([], [])).1 = [] :=
      remapFold_fst_all_unmapped mapping F ([], []) hall
    have h2 : (F.foldl (remapStep mapping) ([], [])).2 =
        F.map (fun kv => kv.1) := by
      rw [hu]
      congr 1
      apply List.filter_eq_self.mpr
      intro kv hkv
      simp [hall kv hkv]
    rw [if_pos (by simp [h1]), h2]

/-- C4 counterexample: with a payload whose only key is unmapped, the
mapper returns None for the normalized half (the source's `return None,
unmapped_keys`), not an empty normalized map as the claim states. -/
theorem remap_keys_empty_returns_none :
    remap_keys (PyVal.dict [("x", PyVal.int 1)]) [] =
      Except.ok (Option.none, ["x"]) := rfl

/-- C4 witness: the amended statement evaluated on the concrete payload
{"a": 2} against the empty translation table. -/
theorem remap_keys_unmapped_total_witness :
    remap_keys (PyVal.dict [("a", PyVal.int 2)]) [] =
      Except.ok (Option.none,
        ((flatten_multilevel_root
          (PyVal.dict [("a", PyVal.int 2)])).getD []).map (fun kv => kv.1)) :=
  (remap_keys_unmapped_total [("a", PyVal.int 2)] []).2
    (fun _ _ => rfl)

-- ===== C8: malformed envelopes are dropped before any state change =====

/-- C8: the entry point never lets an exception out (it is total by its
catch-all, so every input yields a state), and an envelope that fails to
parse, is not an object, or lacks a truthy msghash, received or identity
leaves the process state exactly unchanged: nothing is queued, buffered
or created. -/
theorem process_mqtt_message_drops_incomplete
    (mapping : List (String × Option String)) (st : SysState)
    (mkvs : List (String × PyVal)) (v : PyVal) :
    process_mqtt_message mapping st Option.none = st ∧
    ((∀ kvs, v ≠ PyVal.dict kvs) →
      process_mqtt_message mapping st (some v) = st) ∧
    ((!(truthy ((dictGet mkvs "msghash").getD PyVal.none) &&
        truthy ((dictGet mkvs "received").getD PyVal.none)) ||
      !(truthy ((dictGet mkvs "identity").getD PyVal.none))) = true →
      process_mqtt_message mapping st (some (PyVal.dict mkvs)) = st) := by
  refine ⟨rfl, ?_, ?_⟩
  · intro h
    cases v with
    | dict kvs => exact absurd rfl (h kvs)
    | none => rfl
    | bool b => rfl
    | int n => rfl
    | str s => rfl
    | point a b => rfl
    | uuid n => rfl
    | list xs => rfl
  · intro h
    show (match remap_keys ((dictGet mkvs "data").getD (PyVal.dict []))
        mapping with
      | Except.error _ => st
      | Except.ok (formated, _) => processEnvelope st mkvs formated) = st
    cases hr : remap_keys ((dictGet mkvs "data").getD (PyVal.dict []))
        mapping with
    | error e => rfl
    | ok fu =>
        cases fu with
        | mk formated unmapped =>
            simp only []
            unfold processEnvelope
            simp [h]
            intro h1 h2 h3
            rw [h1, h2, h3] at h
            simp at h

/-- C8 witness: a concrete envelope with msghash and received but without
identity is dropped with the state unchanged, and so are a non-object
payload and a parse failure. -/
theorem process_mqtt_message_drops_incomplete_witness :
    process_mqtt_message [] (stOf (dbWithTypes ["MMSI"])) Option.none =
      stOf (dbWithTypes ["MMSI"]) ∧
    process_mqtt_message [] (stOf (dbWithTypes ["MMSI"]))
      (some (PyVal.str "junk")) = stOf (dbWithTypes ["MMSI"]) ∧
    process_mqtt_message [] (stOf (dbWithTypes ["MMSI"]))
      (some (PyVal.dict [("msghash", PyVal.str "H"),
        ("received", PyVal.int 5)])) = stOf (dbWithTypes ["MMSI"]) := by
  refine ⟨(process_mqtt_message_drops_incomplete [] _ [] PyVal.none).1,
    (process_mqtt_message_drops_incomplete [] _ []
      (PyVal.str "junk")).2.1 (fun kvs h => by cases h), ?_⟩
  exact (process_mqtt_message_drops_incomplete [] _
    [("msghash", PyVal.str "H"), ("received", PyVal.int 5)]
    PyVal.none).2.2 (by rfl)

-- ===== C1: merge recency rule =====

/-- C1 counterexample: accumulating speed=5 at position_timestamp=100 and
then speed=3 at position_timestamp=50 for the same tracker leaves the
pending entry with speed=3, not speed=5 as claimed — the meta-recency
disjunct of the merge condition also applies to positional fields, and
the pending entry has no stored meta_timestamp, so the stale value is
accepted. -/
theorem merge_accepts_stale_positional :
    (mergeScenario.tracker_buffer.find? (fun kv => kv.1 == 0)).map
      (fun kv => dictGet kv.2 "speed") = some (some (PyVal.int 3)) ∧
    ¬ ((mergeScenario.tracker_buffer.find? (fun kv => kv.1 == 0)).map
      (fun kv => dictGet kv.2 "speed") = some (some (PyVal.int 5))) := by
  constructor
  · rfl
  · intro h
    have h3 : (mergeScenario.tracker_buffer.find? (fun kv => kv.1 == 0)).map
        (fun kv => dictGet kv.2 "speed") = some (some (PyVal.int 3)) := rfl
    rw [h3] at h
    simp at h

/-- C1 (amended): for a field of the positional group already present in
the pending entry (with integer recency stamps stored and incoming), the
incoming value is accepted iff the stored position_timestamp is ≤ the
incoming one OR the stored meta_timestamp is ≤ the incoming meta stamp —
the meta-recency disjunct is evaluated for every key, so an
older-positioned value still lands whenever the meta test passes (and
always when no meta_timestamp is stored). -/
theorem mergeField_positional_accept (existing : List (String × PyVal))
    (k : String) (v : PyVal) (p q pIn qIn : Int)
    (hk : posGroup.contains k = true)
    (hPresent : (dictGet existing k).isSome = true)
    (hp : dictGet existing "position_timestamp" = some (PyVal.int p))
    (hq : dictGet existing "meta_timestamp" = some (PyVal.int q)) :
    mergeField existing k v (PyVal.int pIn) (PyVal.int qIn) =
      Except.ok (if p ≤ pIn ∨ q ≤ qIn then dictSet existing k v
                 else existing) := by
  have hnotnone : (dictGet existing k).isNone = false := by
    cases hget : dictGet existing k with
    | none => rw [hget] at hPresent; simp at hPresent
    | some w => rfl
  unfold mergeField
  rw [if_neg (by rw [hnotnone]; exact Bool.false_ne_true)]
  rw [if_pos hk, hp, hq]
  by_cases h1 : p ≤ pIn
  · simp [pyLE, h1]
  · by_cases h2 : q ≤ qIn
    · simp [pyLE, h1, h2]
    · simp [pyLE, h1, h2]

/-- C1 witness for the amended rule: stored position_timestamp 100 and
meta_timestamp 7; an incoming speed at position stamp 50 with meta stamp
8 is accepted (100 ≤ 50 fails but 7 ≤ 8 passes). -/
theorem mergeField_positional_accept_witness :
    mergeField [("speed", PyVal.int 5), ("position_timestamp", PyVal.int 100),
        ("meta_timestamp", PyVal.int 7)] "speed" (PyVal.int 9)
        (PyVal.int 50) (PyVal.int 8) =
      Except.ok (dictSet [("speed", PyVal.int 5),
        ("position_timestamp", PyVal.int 100),
        ("meta_timestamp", PyVal.int 7)] "speed" (PyVal.int 9)) := by
  have h := mergeField_positional_accept
    [("speed", PyVal.int 5), ("position_timestamp", PyVal.int 100),
     ("meta_timestamp", PyVal.int 7)] "speed" (PyVal.int 9)
    100 7 50 8 (by rfl) (by rfl) (by rfl) (by rfl)
  rw [h]
  norm_num

-- ===== C3 / C9: identifier creation =====

theorem trackerIdentifierSave_ok {db : DBState} {tracker : Nat}
    {code ext : String} {db' : DBState} {row : TIRow}
    (h : trackerIdentifierSave db tracker code ext = Except.ok (db', row)) :
    row = { rid := db.nextIdentifier, tracker := tracker, typeCode := code,
            external_id := pyUpper ext,
            identkey := pyUpper (code ++ "_" ++ pyUpper ext) } ∧
    db'.identifiers = db.identifiers ++ [row] ∧
    db'.types = db.types ∧
    (db.identifiers.any (fun r =>
      r.identkey == pyUpper (code ++ "_" ++ pyUpper ext))) = false ∧
    (db.identifiers.any (fun r =>
      r.external_id == pyUpper ext && r.typeCode == code)) = false := by
  unfold trackerIdentifierSave at h
  split at h
  · simp at h
  · next hcond =>
    simp only [Bool.or_eq_true, not_or, Bool.not_eq_true] at hcond
    simp only [Except.ok.injEq, Prod.mk.injEq] at h
    obtain ⟨hdb, hrow⟩ := h
    subst hrow
    subst hdb
    exact ⟨rfl, rfl, rfl, hcond.1, hcond.2⟩

/-- C3 counterexample: a TrackerIdentifier freshly created by
create_tracker_identifier is present in the durable store but absent from
the in-memory identity cache — nothing inserts it synchronously. -/
theorem create_does_not_insert_cache :
    createNoCache = Except.ok (createNoCacheState,
      some { rid := 0, tracker := 0, typeCode := "MMSI",
             external_id := "123", identkey := "MMSI_123" }) ∧
    createNoCacheState.tracker_cache = [] ∧
    createNoCacheState.db.identifiers.map (fun r => r.identkey) =
      ["MMSI_123"] :=
  ⟨rfl, rfl, rfl⟩

/-- C3 (amended): creation does not touch the identity cache — the cache
after a successful create is exactly the cache before — yet an immediate
lookup of the new identkey through find_tracker_identifier_by_identkey
still hits, because a cache miss falls back (read-through) to the durable
store, where the new row is. -/
theorem create_tracker_identifier_read_through (st : SysState)
    (tracker : Nat) (code ext : String) (db' : DBState) (row : TIRow)
    (hT : st.db.types.contains code = true)
    (h : trackerIdentifierSave st.db tracker code ext = Except.ok (db', row))
    (hc : st.tracker_cache.find? (fun kv => kv.1 == row.identkey) =
      Option.none) :
    create_tracker_identifier st tracker code ext =
      Except.ok ({ st with db := db' }, some row) ∧
    ({ st with db := db' } : SysState).tracker_cache = st.tracker_cache ∧
    find_tracker_identifier_by_identkey { st with db := db' }
      (some row.identkey) = some row := by
  obtain ⟨hrow, hids, -, hany1, -⟩ := trackerIdentifierSave_ok h
  refine ⟨?_, rfl, ?_⟩
  · unfold create_tracker_identifier
    rw [if_pos hT, h]
  · have hne : row.identkey ≠ "" := by
      rw [hrow]
      simp only
      intro hemp
      rw [pyUpper_eq_empty_iff] at hemp
      have : (code ++ "_" ++ pyUpper ext).data = [] := by
        rw [hemp]
      simp [String.data_append] at this
    have heval : find_tracker_identifier_by_identkey { st with db := db' }
        (some row.identkey) =
      (if (row.identkey == "") = true then Option.none
       else
         match (st.tracker_cache.find?
             (fun kv => kv.1 == row.identkey)).map (fun kv => kv.2) with
         | some ti => some ti
         | Option.none =>
             db'.identifiers.find? (fun r => r.identkey == row.identkey)) :=
      rfl
    rw [heval, if_neg (by simpa using hne), hc]
    show db'.identifiers.find? (fun r => r.identkey == row.identkey) =
      some row
    rw [hids, List.find?_append]
    have hold : st.db.identifiers.find?
        (fun r => r.identkey == row.identkey) = Option.none := by
      apply List.find?_eq_none.mpr
      intro x hx
      have := (List.any_eq_false.mp (by exact hany1)) x hx
      rw [hrow]
      simpa using this
    rw [hold]
    simp [List.find?_cons]

/-- C3 witness: the amended statement on the concrete fresh store. -/
theorem create_tracker_identifier_read_through_witness :
    create_tracker_identifier (stOf (dbWithTypes ["MMSI"])) 0 "MMSI" "123" =
      Except.ok (createNoCacheState,
        some { rid := 0, tracker := 0, typeCode := "MMSI",
               external_id := "123", identkey := "MMSI_123" }) ∧
    find_tracker_identifier_by_identkey createNoCacheState
      (some "MMSI_123") =
      some { rid := 0, tracker := 0, typeCode := "MMSI",
             external_id := "123", identkey := "MMSI_123" } := by
  have h := create_tracker_identifier_read_through
    (stOf (dbWithTypes ["MMSI"])) 0 "MMSI" "123"
    (createNoCacheState.db) ⟨0, 0, "MMSI", "123", "MMSI_123"⟩
    (by rfl) (by rfl) (by rfl)
  exact ⟨h.1, h.2.2⟩

/-- C9: a successfully saved TrackerIdentifier has external_id
case-normalized, identkey equal to the type code and external_id joined
by an underscore with both components upper-cased; saving preserves
global identkey uniqueness and (external_id, type) pair uniqueness; the
same (external_id, type) can never be saved again for any tracker; and
one tracker may own identifiers under several different types. -/
theorem trackerIdentifierSave_identkey_unique (db : DBState) (tracker : Nat)
    (code ext : String) (db' : DBState) (row : TIRow)
    (h : trackerIdentifierSave db tracker code ext = Except.ok (db', row))
    (hI : identkeysUnique db) (hP : pairsUnique db) :
    row.external_id = pyUpper ext ∧
    row.typeCode = code ∧
    row.tracker = tracker ∧
    row.identkey = pyUpper code ++ "_" ++ pyUpper row.external_id ∧
    identkeysUnique db' ∧
    pairsUnique db' ∧
    (∀ t2 : Nat,
      trackerIdentifierSave db' t2 code ext = Except.error ()) ∧
    (∃ d2 r2, trackerIdentifierSave dbTwoTypes 7 "MMSI" "123" =
        Except.ok (d2, r2) ∧ r2.tracker = 7 ∧
        dbTwoTypes.identifiers.map (fun r => r.tracker) = [7]) := by
  obtain ⟨hrow, hids, -, hany1, hany2⟩ := trackerIdentifierSave_ok h
  have hext : row.external_id = pyUpper ext := by rw [hrow]
  have hcode : row.typeCode = code := by rw [hrow]
  have htr : row.tracker = tracker := by rw [hrow]
  have hkey : row.identkey = pyUpper code ++ "_" ++ pyUpper row.external_id := by
    rw [hrow]
    simp only
    rw [pyUpper_append, pyUpper_append]
    rfl
  refine ⟨hext, hcode, htr, hkey, ?_, ?_, ?_, ?_⟩
  · unfold identkeysUnique at hI ⊢
    rw [hids]
    simp only [List.map_append, List.map_cons, List.map_nil]
    rw [List.nodup_append]
    refine ⟨hI, List.nodup_singleton _, ?_⟩
    intro a ha hb
    simp only [List.mem_singleton] at hb
    subst hb
    simp only [List.mem_map] at ha
    obtain ⟨r, hr, hrk⟩ := ha
    have hfalse := (List.any_eq_false.mp hany1) r hr
    have hkeq : row.identkey = pyUpper (code ++ "_" ++ pyUpper ext) := by
      rw [hrow]
    rw [hkeq] at hrk
    simp [hrk] at hfalse
  · unfold pairsUnique at hP ⊢
    rw [hids]
    simp only [List.map_append, List.map_cons, List.map_nil]
    rw [List.nodup_append]
    refine ⟨hP, List.nodup_singleton _, ?_⟩
    intro a ha hb
    simp only [List.mem_singleton] at hb
    subst hb
    simp only [List.mem_map] at ha
    obtain ⟨r, hr, hrk⟩ := ha
    have hfalse := (List.any_eq_false.mp hany2) r hr
    simp only [Prod.mk.injEq] at hrk
    rw [hext] at hrk
    rw [hcode] at hrk
    simp [hrk.1, hrk.2] at hfalse
  · intro t2
    have hmem : row ∈ db'.identifiers := by rw [hids]; simp
    have hany : (db'.identifiers.any (fun r =>
        r.external_id == pyUpper ext && r.typeCode == code)) = true :=
      List.any_eq_true.mpr ⟨row, hmem, by simp [hext, hcode]⟩
    unfold trackerIdentifierSave
    rw [if_pos (by simp [hany])]
  · exact ⟨_, _, rfl, rfl, rfl⟩

/-- C9 witness: saving mmsi "ab" for tracker 3 against an empty store. -/
theorem trackerIdentifierSave_identkey_unique_witness :
    rowMMSIab.identkey = pyUpper "MMSI" ++ "_" ++ pyUpper "AB" ∧
    identkeysUnique dbAfterMMSIab := by
  have h := trackerIdentifierSave_identkey_unique (dbWithTypes ["MMSI"]) 3
    "MMSI" "ab" dbAfterMMSIab rowMMSIab
    (by rfl) (by simp [identkeysUnique, dbWithTypes])
    (by simp [pairsUnique, dbWithTypes])
  refine ⟨?_, h.2.2.2.2.1⟩
  have h4 := h.2.2.2.1
  simpa using h4

-- ===== C6 / C10: the flush's field-update loop =====

theorem applyFieldUpdate_fst (f : List (String × PyVal)) (k : String)
    (v : PyVal) :
    (applyFieldUpdate f k v).1 = f ∨
    ((applyFieldUpdate f k v).1 = dictSet f k v ∧ pyEmptyVal v = false) := by
  unfold applyFieldUpdate
  split
  · exact Or.inl rfl
  · split
    · exact Or.inl rfl
    · next h2 =>
      have hv : pyEmptyVal v = false := by simpa using h2
      split
      · split
        · exact Or.inr ⟨rfl, hv⟩
        · exact Or.inl rfl
      · split
        · exact Or.inl rfl
        · exact Or.inr ⟨rfl, hv⟩

theorem applyFieldUpdate_lookup_ne {k k' : String} (hne : k' ≠ k)
    (f : List (String × PyVal)) (v : PyVal) :
    dictGet (applyFieldUpdate f k' v).1 k = dictGet f k := by
  rcases applyFieldUpdate_fst f k' v with h | ⟨h, -⟩ <;> rw [h]
  exact dictGet_dictSet_ne f hne v

theorem applyFieldUpdate_lookup_self (f : List (String × PyVal))
    (k : String) (v : PyVal) :
    dictGet (applyFieldUpdate f k v).1 k =
      fieldUpdateResult k v (dictGet f k) := by
  unfold applyFieldUpdate fieldUpdateResult
  split
  · rfl
  · split
    · rfl
    · split
      · split
        · exact dictGet_dictSet_self f k v
        · rfl
      · split
        · rfl
        · exact dictGet_dictSet_self f k v

theorem updateStep_tid (acc : TrackerRow × List String)
    (kv : String × PyVal) : (updateStep acc kv).1.tid = acc.1.tid := rfl

theorem updateFold_lookup_frame (k : String) :
    ∀ (item : List (String × PyVal)) (acc : TrackerRow × List String),
      (∀ kv ∈ item, kv.1 ≠ k) →
      dictGet (item.foldl updateStep acc).1.fields k =
        dictGet acc.1.fields k := by
  intro item
  induction item with
  | nil => intro acc _; rfl
  | cons a t ih =>
    intro acc h
    simp only [List.foldl_cons]
    rw [ih _ (fun kv hkv => h kv (by simp [hkv]))]
    exact applyFieldUpdate_lookup_ne (h a (by simp)) acc.1.fields a.2

theorem updateFold_lookup (k : String) (v : PyVal) :
    ∀ (item : List (String × PyVal)) (acc : TrackerRow × List String),
      (item.map Prod.fst).Nodup → (k, v) ∈ item →
      dictGet (item.foldl updateStep acc).1.fields k =
        fieldUpdateResult k v (dictGet acc.1.fields k) := by
  intro item
  induction item with
  | nil => intro acc _ hmem; simp at hmem
  | cons a t ih =>
    intro acc hnd hmem
    simp only [List.map_cons, List.nodup_cons] at hnd
    simp only [List.foldl_cons]
    by_cases hak : a.1 = k
    · have hav : a = (k, v) := by
        rcases List.mem_cons.mp hmem with h | h
        · exact h.symm
        · exfalso
          apply hnd.1
          have hkmem : k ∈ t.map Prod.fst :=
            List.mem_map.mpr ⟨(k, v), h, rfl⟩
          rw [hak]
          exact hkmem
      subst hav
      have hfr : ∀ kv ∈ t, kv.1 ≠ k := by
        intro kv hkv hk1
        exact hnd.1 (List.mem_map.mpr ⟨kv, hkv, hk1⟩)
      rw [updateFold_lookup_frame k t (updateStep acc (k, v)) hfr]
      exact applyFieldUpdate_lookup_self acc.1.fields k v
    · have hmt : (k, v) ∈ t := by
        rcases List.mem_cons.mp hmem with h | h
        · exact absurd (by rw [← h]) hak
        · exact h
      rw [ih _ hnd.2 hmt]
      have hstep := applyFieldUpdate_lookup_ne hak acc.1.fields a.2
      show fieldUpdateResult k v
        (dictGet (applyFieldUpdate acc.1.fields a.1 a.2).1 k) = _
      rw [hstep]

/-- C6: in the flush's field loop over a pending entry, custom_name and
icon are fill-only — a non-empty pending value lands only when the
durable value is None or a blank string and the durable value is kept
otherwise — while any other valid field with a differing non-empty
pending value is overwritten unconditionally. -/
theorem flush_fill_only_fields (row : TrackerRow)
    (item : List (String × PyVal)) (k : String) (v : PyVal)
    (hnodup : (item.map Prod.fst).Nodup) (hmem : (k, v) ∈ item)
    (hv : pyEmptyVal v = false) :
    ((k = "custom_name" ∨ k = "icon") →
      dictGet (updateTrackerFromItem row item).1.fields k =
        (if isNoneVal ((dictGet row.fields k).getD PyVal.none) ||
            pyStrBlank ((dictGet row.fields k).getD PyVal.none)
         then some v else dictGet row.fields k)) ∧
    (k ≠ "id" → k ≠ "custom_name" → k ≠ "icon" →
      valid_fields.contains k = true →
      pyEq ((dictGet row.fields k).getD PyVal.none) v = false →
      dictGet (updateTrackerFromItem row item).1.fields k = some v) := by
  have hmain : dictGet (updateTrackerFromItem row item).1.fields k =
      fieldUpdateResult k v (dictGet row.fields k) :=
    updateFold_lookup k v item (row, []) hnodup hmem
  constructor
  · intro hk
    rw [hmain]
    unfold fieldUpdateResult
    rcases hk with h | h <;> subst h
    · have hm : "custom_name" ∈ valid_fields := by decide
      simp [hv, hm]
    · have hm : "icon" ∈ valid_fields := by decide
      simp [hv, hm]
  · intro hid hcn hic hvf hne
    rw [hmain]
    unfold fieldUpdateResult
    have hid' : (k == "id") = false := by simp [hid]
    have hcn' : (k == "custom_name") = false := by simp [hcn]
    have hic' : (k == "icon") = false := by simp [hic]
    have hvm : k ∈ valid_fields := by simpa using hvf
    simp [hid', hvm, hv, hcn', hic', hne]

/-- C6 witness: flushing custom_name "Foo" against a row already holding
"Bar" keeps "Bar", and a differing speed is overwritten. -/
theorem flush_fill_only_fields_witness :
    dictGet (updateTrackerFromItem
      { tid := 0, fields := [("custom_name", PyVal.str "Bar")] }
      [("custom_name", PyVal.str "Foo"), ("speed", PyVal.int 2)]).1.fields
      "custom_name" = some (PyVal.str "Bar") ∧
    dictGet (updateTrackerFromItem
      { tid := 0, fields := [("custom_name", PyVal.str "Bar")] }
      [("custom_name", PyVal.str "Foo"), ("speed", PyVal.int 2)]).1.fields
      "speed" = some (PyVal.int 2) := by
  constructor
  · have h := (flush_fill_only_fields
      { tid := 0, fields := [("custom_name", PyVal.str "Bar")] }
      [("custom_name", PyVal.str "Foo"), ("speed", PyVal.int 2)]
      "custom_name" (PyVal.str "Foo") (by simp) (by simp) (by rfl)).1
      (Or.inl rfl)
    rw [h]
    rfl
  · have h := (flush_fill_only_fields
      { tid := 0, fields := [("custom_name", PyVal.str "Bar")] }
      [("custom_name", PyVal.str "Foo"), ("speed", PyVal.int 2)]
      "speed" (PyVal.int 2) (by simp) (by simp) (by rfl)).2
      (by simp) (by simp) (by simp) (by rfl) (by rfl)
    rw [h]

theorem updateFold_tid :
    ∀ (item : List (String × PyVal)) (acc : TrackerRow × List String),
      (item.foldl updateStep acc).1.tid = acc.1.tid := by
  intro item
  induction item with
  | nil => intro acc; rfl
  | cons a t ih =>
    intro acc
    simp only [List.foldl_cons]
    rw [ih (updateStep acc a), updateStep_tid]

theorem updateFold_lookup_cases (k : String) :
    ∀ (item : List (String × PyVal)) (acc : TrackerRow × List String),
      dictGet (item.foldl updateStep acc).1.fields k =
        dictGet acc.1.fields k ∨
      ∃ v, (k, v) ∈ item ∧ pyEmptyVal v = false ∧
        dictGet (item.foldl updateStep acc).1.fields k = some v := by
  intro item
  induction item with
  | nil => intro acc; exact Or.inl rfl
  | cons a t ih =>
    intro acc
    obtain ⟨k1, v1⟩ := a
    simp only [List.foldl_cons]
    rcases ih (updateStep acc (k1, v1)) with h | ⟨v, hv, hve, heq⟩
    · rcases applyFieldUpdate_fst acc.1.fields k1 v1 with h1 | ⟨h1, hv1⟩
      · left
        rw [h]
        show dictGet (applyFieldUpdate acc.1.fields k1 v1).1 k = _
        rw [h1]
      · by_cases hak : k1 = k
        · subst hak
          right
          refine ⟨v1, by simp, hv1, ?_⟩
          rw [h]
          show dictGet (applyFieldUpdate acc.1.fields k1 v1).1 k1 = some v1
          rw [h1]
          exact dictGet_dictSet_self acc.1.fields k1 v1
        · left
          rw [h]
          show dictGet (applyFieldUpdate acc.1.fields k1 v1).1 k = _
          rw [h1]
          exact dictGet_dictSet_ne acc.1.fields hak v1
    · exact Or.inr ⟨v, by simp [hv], hve, heq⟩

theorem trackerFlushStep_lookup (d : DBState)
    (item : List (String × PyVal)) :
    ∀ row' ∈ (trackerFlushStep d item).trackers,
      ∃ row ∈ d.trackers, row'.tid = row.tid ∧ ∀ k,
        dictGet row'.fields k = dictGet row.fields k ∨
        ∃ v, (k, v) ∈ item ∧ pyEmptyVal v = false ∧
          dictGet row'.fields k = some v := by
  intro row' hmem
  unfold trackerFlushStep at hmem
  split at hmem
  · exact ⟨row', hmem, rfl, fun k => Or.inl rfl⟩
  · next tid hgid =>
    split at hmem
    · exact ⟨row', hmem, rfl, fun k => Or.inl rfl⟩
    · next row0 hfind =>
      split at hmem
      · exact ⟨row', hmem, rfl, fun k => Or.inl rfl⟩
      · simp only [List.mem_map] at hmem
        obtain ⟨t0, ht0, heq⟩ := hmem
        by_cases htid : (t0.tid == tid) = true
        · rw [if_pos htid] at heq
          have h0 : row0 ∈ d.trackers := List.mem_of_find?_eq_some hfind
          refine ⟨row0, h0, ?_, ?_⟩
          · rw [← heq]
            exact updateFold_tid item (row0, [])
          · intro k
            rcases updateFold_lookup_cases k item (row0, []) with h | h
            · left; rw [← heq]; exact h
            · right
              obtain ⟨v, hv, hve, heqv⟩ := h
              exact ⟨v, hv, hve, by rw [← heq]; exact heqv⟩
        · rw [if_neg htid] at heq
          subst heq
          exact ⟨t0, ht0, rfl, fun k => Or.inl rfl⟩

theorem flushTrackers_lookup :
    ∀ (items : List (List (String × PyVal))) (db : DBState),
      ∀ row' ∈ (flushTrackers db items).trackers,
        ∃ row ∈ db.trackers, row'.tid = row.tid ∧ ∀ k,
          dictGet row'.fields k = dictGet row.fields k ∨
          ∃ item v, item ∈ items ∧ (k, v) ∈ item ∧ pyEmptyVal v = false ∧
            dictGet row'.fields k = some v := by
  intro items
  induction items with
  | nil =>
      intro db row' h
      exact ⟨row', h, rfl, fun k => Or.inl rfl⟩
  | cons item t ih =>
    intro db row' h
    obtain ⟨rowM, hM, htid, hks⟩ := ih (trackerFlushStep db item) row' h
    obtain ⟨row0, h0, htid0, hks0⟩ := trackerFlushStep_lookup db item rowM hM
    refine ⟨row0, h0, htid.trans htid0, ?_⟩
    intro k
    rcases hks k with hk | ⟨it, v, hit, hv, hve, heq⟩
    · rcases hks0 k with hk0 | ⟨v, hv, hve, heq⟩
      · exact Or.inl (hk.trans hk0)
      · exact Or.inr ⟨item, v, by simp, hv, hve, hk.trans heq⟩
    · exact Or.inr ⟨it, v, by simp [hit], hv, hve, heq⟩

theorem flushMessages_trackers :
    ∀ (items : List MsgRow) (db : DBState),
      (flushMessages db items).trackers = db.trackers := by
  intro items
  induction items with
  | nil => intro db; rfl
  | cons m t ih =>
    intro db
    show (flushMessages (msgInsertStep db m) t).trackers = _
    rw [ih]
    unfold msgInsertStep
    split <;> rfl

/-- C10: a pending value that is None or a blank string is skipped
outright by the flush's field loop, and consequently every durable
Tracker field after save_buffer_to_db either keeps its previous value or
holds a non-empty pending value: a flush can fill or replace a field but
can never erase one. -/
theorem flush_never_erases (st : SysState) :
    (∀ (f : List (String × PyVal)) (k : String) (v : PyVal),
      pyEmptyVal v = true → applyFieldUpdate f k v = (f, false)) ∧
    (∀ row' ∈ (save_buffer_to_db st).db.trackers,
      ∃ row ∈ st.db.trackers, row'.tid = row.tid ∧
        (∀ k, dictGet row'.fields k = dictGet row.fields k ∨
          ∃ item v, item ∈ st.tracker_buffer.map (fun kv => kv.2) ∧
            (k, v) ∈ item ∧ pyEmptyVal v = false ∧
            dictGet row'.fields k = some v) ∧
        (∀ k, pyEmptyVal ((dictGet row.fields k).getD PyVal.none) = false →
          pyEmptyVal ((dictGet row'.fields k).getD PyVal.none) = false)) := by
  constructor
  · intro f k v h
    by_cases h1 : (k == "id" || !(valid_fields.contains k)) = true
    · unfold applyFieldUpdate
      rw [if_pos h1]
    · unfold applyFieldUpdate
      rw [if_neg h1, if_pos h]
  · intro row' h
    have h' : row' ∈ (flushTrackers (flushMessages st.db st.message_queue)
        (st.tracker_buffer.map (fun kv => kv.2))).trackers := h
    obtain ⟨row, hrow, htid, hks⟩ := flushTrackers_lookup _ _ row' h'
    rw [flushMessages_trackers] at hrow
    refine ⟨row, hrow, htid, hks, ?_⟩
    intro k hne
    rcases hks k with hk | ⟨it, v, _, _, hve, heq⟩
    · rw [hk]
      exact hne
    · rw [heq]
      simpa using hve

/-- C10 witness: a None value is skipped by the field loop, and flushing
the fixture state (blank custom_name pending, speed 2 pending) leaves the
durable custom_name "Bar" non-empty. -/
theorem flush_never_erases_witness :
    applyFieldUpdate [("x", PyVal.int 1)] "speed" PyVal.none =
      ([("x", PyVal.int 1)], false) ∧
    pyEmptyVal ((dictGet rowBarSpeed.fields "custom_name").getD
      PyVal.none) = false := by
  constructor
  · exact (flush_never_erases stFlushFix).1 [("x", PyVal.int 1)] "speed"
      PyVal.none rfl
  · have hmem : rowBarSpeed ∈ (save_buffer_to_db stFlushFix).db.trackers := by
      rw [show (save_buffer_to_db stFlushFix).db.trackers = [rowBarSpeed]
        from rfl]
      exact List.mem_singleton.mpr rfl
    obtain ⟨row, hrow, -, -, h3⟩ := (flush_never_erases stFlushFix).2
      rowBarSpeed hmem
    have hr : row = rowBar := by
      have hx : row ∈ [rowBar] := by
        rw [show stFlushFix.db.trackers = [rowBar] from rfl] at hrow
        exact hrow
      simpa using hx
    subst hr
    exact h3 "custom_name" (by rfl)

-- ===== C7: idempotent message storage =====

theorem flushMessages_append (db : DBState) (l1 l2 : List MsgRow) :
    flushMessages db (l1 ++ l2) = flushMessages (flushMessages db l1) l2 := by
  unfold flushMessages
  exact List.foldl_append _ _ _ _

theorem flushMessages_mem_mono :
    ∀ (items : List MsgRow) (db : DBState) (r : MsgRow),
      r ∈ db.messages → r ∈ (flushMessages db items).messages := by
  intro items
  induction items with
  | nil => intro db r h; exact h
  | cons m t ih =>
    intro db r h
    show r ∈ (flushMessages (msgInsertStep db m) t).messages
    apply ih
    unfold msgInsertStep
    split
    · exact h
    · simp only [List.mem_append]
      exact Or.inl h

theorem msgInsertStep_haskey (db : DBState) (m : MsgRow)
    (hrefl : pyEq m.sha256_key m.sha256_key = true) :
    ∃ r ∈ (msgInsertStep db m).messages,
      pyEq r.sha256_key m.sha256_key = true := by
  unfold msgInsertStep
  split
  · next h =>
    obtain ⟨r, hr, hp⟩ := List.any_eq_true.mp h
    exact ⟨r, hr, hp⟩
  · exact ⟨m, by simp, hrefl⟩

theorem msgInsertStep_skip (db : DBState) (m : MsgRow)
    (h : ∃ r ∈ db.messages, pyEq r.sha256_key m.sha256_key = true) :
    msgInsertStep db m = db := by
  unfold msgInsertStep
  rw [if_pos (List.any_eq_true.mpr h)]

theorem flushMessages_pairwise :
    ∀ (items : List MsgRow) (db : DBState),
      List.Pairwise (fun a b => pyEq a.sha256_key b.sha256_key = false)
        db.messages →
      List.Pairwise (fun a b => pyEq a.sha256_key b.sha256_key = false)
        (flushMessages db items).messages := by
  intro items
  induction items with
  | nil => intro db h; exact h
  | cons m t ih =>
    intro db h
    show List.Pairwise _ (flushMessages (msgInsertStep db m) t).messages
    apply ih
    unfold msgInsertStep
    split
    · exact h
    · next hany =>
      rw [List.pairwise_append]
      refine ⟨h, List.pairwise_singleton _ _, ?_⟩
      intro a ha b hb
      simp only [List.mem_singleton] at hb
      subst hb
      have := (List.any_eq_false.mp (by simpa using hany)) a ha
      simpa using this

theorem flushTrackers_messages :
    ∀ (items : List (List (String × PyVal))) (db : DBState),
      (flushTrackers db items).messages = db.messages := by
  intro items
  induction items with
  | nil => intro db; rfl
  | cons item t ih =>
    intro db
    show (flushTrackers (trackerFlushStep db item) t).messages = _
    rw [ih]
    unfold trackerFlushStep
    split
    · rfl
    · split
      · rfl
      · split <;> rfl

/-- C7: the bulk insert silently collapses duplicate content hashes:
flushing a queue that contains a message (same content, hence same
sha256_key) twice produces exactly the state produced by flushing it
once, and distinctness of the stored content-hash keys is preserved, so
at most one TrackerMessage row per hash ever exists. -/
theorem message_flush_idempotent (st : SysState) (q1 q2 q3 : List MsgRow)
    (m : MsgRow) (hq : st.message_queue = q1 ++ m :: q2 ++ m :: q3)
    (hrefl : pyEq m.sha256_key m.sha256_key = true) :
    save_buffer_to_db st =
      save_buffer_to_db { st with message_queue := q1 ++ m :: q2 ++ q3 } ∧
    (List.Pairwise (fun a b => pyEq a.sha256_key b.sha256_key = false)
        st.db.messages →
      List.Pairwise (fun a b => pyEq a.sha256_key b.sha256_key = false)
        (save_buffer_to_db st).db.messages) := by
  have hmsg : flushMessages st.db (q1 ++ m :: q2 ++ m :: q3) =
      flushMessages st.db (q1 ++ m :: q2 ++ q3) := by
    have hsplit1 : q1 ++ m :: q2 ++ m :: q3 =
        (q1 ++ m :: q2) ++ (m :: q3) := by
      simp [List.append_assoc]
    have hsplit2 : q1 ++ m :: q2 ++ q3 = (q1 ++ m :: q2) ++ q3 := by
      simp [List.append_assoc]
    have hkey : ∃ r ∈ (flushMessages st.db (q1 ++ m :: q2)).messages,
        pyEq r.sha256_key m.sha256_key = true := by
      have hB : flushMessages st.db (q1 ++ m :: q2) =
          flushMessages (msgInsertStep (flushMessages st.db q1) m) q2 := by
        rw [flushMessages_append]
        rfl
      rw [hB]
      obtain ⟨r, hr, hp⟩ :=
        msgInsertStep_haskey (flushMessages st.db q1) m hrefl
      exact ⟨r, flushMessages_mem_mono q2 _ r hr, hp⟩
    calc flushMessages st.db (q1 ++ m :: q2 ++ m :: q3)
        = flushMessages (flushMessages st.db (q1 ++ m :: q2)) (m :: q3) := by
          rw [hsplit1]
          exact flushMessages_append _ _ _
      _ = flushMessages (msgInsertStep
            (flushMessages st.db (q1 ++ m :: q2)) m) q3 := rfl
      _ = flushMessages (flushMessages st.db (q1 ++ m :: q2)) q3 := by
          rw [msgInsertStep_skip _ m hkey]
      _ = flushMessages st.db ((q1 ++ m :: q2) ++ q3) :=
          (flushMessages_append _ _ _).symm
      _ = flushMessages st.db (q1 ++ m :: q2 ++ q3) := by rw [hsplit2]
  constructor
  · unfold save_buffer_to_db
    rw [hq]
    rw [hmsg]
  · intro hp
    show List.Pairwise _
      ((flushTrackers (flushMessages st.db st.message_queue)
        (st.tracker_buffer.map (fun kv => kv.2))).messages)
    rw [flushTrackers_messages]
    exact flushMessages_pairwise _ _ hp

/-- C7 witness: a queue holding the same message twice flushes to the
same state as the queue holding it once, and key distinctness holds
afterwards. -/
theorem message_flush_idempotent_witness :
    save_buffer_to_db stQueueFix =
      save_buffer_to_db { stQueueFix with message_queue := [msgFix] } ∧
    List.Pairwise (fun a b => pyEq a.sha256_key b.sha256_key = false)
      (save_buffer_to_db stQueueFix).db.messages := by
  have h := message_flush_idempotent stQueueFix [] [] [] msgFix rfl rfl
  exact ⟨h.1, h.2 (by simp [stQueueFix, dbWithTypes])⟩

-- ===== C2 / C5: the identity resolver =====

theorem append_underscore_ne_empty (a b : String) : a ++ "_" ++ b ≠ "" := by
  cases a with
  | mk as =>
    cases b with
    | mk bs =>
      intro h
      have hd := congrArg String.data h
      simp at hd

theorem find_none_parts (st : SysState) (K : String) (hK : K ≠ "")
    (h : find_tracker_identifier_by_identkey st (some K) = Option.none) :
    st.tracker_cache.find? (fun kv => kv.1 == K) = Option.none ∧
    st.db.identifiers.find? (fun r => r.identkey == K) = Option.none := by
  have heval : find_tracker_identifier_by_identkey st (some K) =
      (if (K == "") = true then Option.none
       else
         match (st.tracker_cache.find?
             (fun kv => kv.1 == K)).map (fun kv => kv.2) with
         | some ti => some ti
         | Option.none =>
             st.db.identifiers.find? (fun r => r.identkey == K)) := rfl
  rw [heval, if_neg (by simpa using hK)] at h
  cases hc : st.tracker_cache.find? (fun kv => kv.1 == K) with
  | some kv =>
      rw [hc] at h
      simp at h
  | none =>
      rw [hc] at h
      exact ⟨rfl, by simpa using h⟩

theorem find_some_in_db {st : SysState} {K : String} {r : TIRow}
    (hd : st.db.identifiers.find? (fun x => x.identkey == K) = some r) :
    r ∈ st.db.identifiers ∧ r.identkey = K := by
  refine ⟨List.mem_of_find?_eq_some hd, ?_⟩
  have := List.find?_some hd
  simpa using this

theorem find_after_append (st : SysState) (db' : DBState) (row : TIRow)
    (K : String) (hK : K ≠ "")
    (hids : db'.identifiers = st.db.identifiers ++ [row])
    (hfind : find_tracker_identifier_by_identkey st (some K) = Option.none)
    (hrow : row.identkey ≠ K) :
    find_tracker_identifier_by_identkey { st with db := db' } (some K) =
      Option.none := by
  obtain ⟨hc, hd⟩ := find_none_parts st K hK hfind
  have heval : find_tracker_identifier_by_identkey { st with db := db' }
      (some K) =
      (if (K == "") = true then Option.none
       else
         match (st.tracker_cache.find?
             (fun kv => kv.1 == K)).map (fun kv => kv.2) with
         | some ti => some ti
         | Option.none =>
             db'.identifiers.find? (fun r => r.identkey == K)) := rfl
  rw [heval, if_neg (by simpa using hK), hc]
  show db'.identifiers.find? (fun r => r.identkey == K) = Option.none
  rw [hids, List.find?_append, hd]
  simp [List.find?_cons, hrow]

theorem create_tracker_identifier_fresh (st : SysState) (tracker : Nat)
    (code ext : String)
    (hT : st.db.types.contains code = true)
    (hcU : pyUpper code = code) (heU : pyUpper ext = ext)
    (hmiss : find_tracker_identifier_by_identkey st
      (some (code ++ "_" ++ ext)) = Option.none)
    (hwf : identkeysDerived st.db) :
    ∃ db', trackerIdentifierSave st.db tracker code ext =
        Except.ok (db', newTIRow st.db tracker code ext) ∧
      create_tracker_identifier st tracker code ext =
        Except.ok ({ st with db := db' },
          some (newTIRow st.db tracker code ext)) ∧
      db'.identifiers = st.db.identifiers ++
        [newTIRow st.db tracker code ext] ∧
      db'.trackers = st.db.trackers ∧
      db'.types = st.db.types ∧
      db'.nextTracker = st.db.nextTracker ∧
      identkeysDerived db' ∧
      (newTIRow st.db tracker code ext).identkey = code ++ "_" ++ ext ∧
      (newTIRow st.db tracker code ext).tracker = tracker ∧
      (newTIRow st.db tracker code ext).external_id = ext ∧
      (newTIRow st.db tracker code ext).typeCode = code := by
  have hkeyval : pyUpper (code ++ "_" ++ pyUpper ext) = code ++ "_" ++ ext := by
    rw [heU, pyUpper_append, pyUpper_append, hcU, heU]
    rfl
  have hKne : code ++ "_" ++ ext ≠ "" := append_underscore_ne_empty code ext
  obtain ⟨-, hd⟩ := find_none_parts st (code ++ "_" ++ ext) hKne hmiss
  have hall := List.find?_eq_none.mp hd
  have hany1 : (st.db.identifiers.any (fun r =>
      r.identkey == pyUpper (code ++ "_" ++ pyUpper ext))) = false := by
    rw [hkeyval]
    apply List.any_eq_false.mpr
    intro r hr
    exact hall r hr
  have hany2 : (st.db.identifiers.any (fun r =>
      r.external_id == pyUpper ext && r.typeCode == code)) = false := by
    apply List.any_eq_false.mpr
    intro r hr hcontra
    simp only [Bool.and_eq_true, beq_iff_eq] at hcontra
    apply hall r hr
    have hk := hwf r hr
    rw [hcontra.1, hcontra.2] at hk
    simp [hk, hkeyval]
  have hsave : trackerIdentifierSave st.db tracker code ext =
      Except.ok ({ st.db with
        identifiers := st.db.identifiers ++ [newTIRow st.db tracker code ext],
        nextIdentifier := st.db.nextIdentifier + 1,
        trackerGroups := st.db.trackerGroups ++
          ((st.db.typeGroups.filter (fun tg =>
            tg.1 == code &&
              !(st.db.trackerGroups.contains (tracker, tg.2)))).map
           (fun tg => (tracker, tg.2))) }, newTIRow st.db tracker code ext) := by
    unfold trackerIdentifierSave
    rw [if_neg (by simp [hany1, hany2])]
  refine ⟨_, hsave, ?_, rfl, rfl, rfl, rfl, ?_, ?_, ?_, ?_, ?_⟩
  · unfold create_tracker_identifier
    rw [if_pos hT, hsave]
  · intro r hr
    simp only [List.mem_append, List.mem_singleton] at hr
    rcases hr with hr | hr
    · exact hwf r hr
    · subst hr
      rfl
  · show pyUpper (code ++ "_" ++ pyUpper ext) = code ++ "_" ++ ext
    exact hkeyval
  · rfl
  · show pyUpper ext = ext
    exact heU
  · rfl

theorem upperField_str_entry {entries : List (String × PyVal)} {k : String}
    {s : String} (hd : dictGet entries k = some (PyVal.str s))
    (hs : s ≠ "") :
    upperField entries k = Except.ok (some (pyUpper s)) := by
  unfold upperField
  rw [hd]
  show (if truthy (PyVal.str s) = true then Except.ok (some (pyUpper s))
        else Except.ok Option.none) = Except.ok (some (pyUpper s))
  rw [if_pos (by simp [truthy, hs])]

theorem upperField_absent {entries : List (String × PyVal)} {k : String}
    (hd : dictGet entries k = Option.none) :
    upperField entries k = Except.ok Option.none := by
  unfold upperField
  rw [hd]

theorem identityEntries_identkey (ik tcu ty idv : String) :
    dictGet (identityEntries ik tcu ty idv) "identkey" =
      some (PyVal.str ik) := by
  unfold identityEntries dictGet
  rw [List.find?_cons_of_pos _ (by simp)]
  rfl

theorem identityEntries_tcUniqueId (ik tcu ty idv : String) :
    dictGet (identityEntries ik tcu ty idv) "tcUniqueId" =
      some (PyVal.str tcu) := by
  unfold identityEntries dictGet
  rw [List.find?_cons_of_neg _ (by simp),
      List.find?_cons_of_pos _ (by simp)]
  rfl

theorem identityEntries_identtype (ik tcu ty idv : String) :
    dictGet (identityEntries ik tcu ty idv) "identtype" =
      some (PyVal.str ty) := by
  unfold identityEntries dictGet
  rw [List.find?_cons_of_neg _ (by simp),
      List.find?_cons_of_neg _ (by simp),
      List.find?_cons_of_pos _ (by simp)]
  rfl

theorem identityEntries_identid (ik tcu ty idv : String) :
    dictGet (identityEntries ik tcu ty idv) "identid" =
      some (PyVal.str idv) := by
  unfold identityEntries dictGet
  rw [List.find?_cons_of_neg _ (by simp),
      List.find?_cons_of_neg _ (by simp),
      List.find?_cons_of_neg _ (by simp),
      List.find?_cons_of_pos _ (by simp)]
  rfl

theorem get_or_create_on_identityDict (st : SysState)
    (ik tcu ty idv : String) (tc : PyVal) (hik : ik ≠ "") (htcu : tcu ≠ "")
    (hty : ty ≠ "") (hidv : idv ≠ "") :
    get_or_create_tracker_identifier st (identityDict ik tcu ty idv) tc =
      get_or_create_core st (some (pyUpper ik)) (some (pyUpper tcu))
        (some (pyUpper ty)) (some (pyUpper idv)) tc := by
  unfold get_or_create_tracker_identifier identityDict
  show (match upperField (identityEntries ik tcu ty idv) "identkey",
        upperField (identityEntries ik tcu ty idv) "tcUniqueId",
        upperField (identityEntries ik tcu ty idv) "identtype",
        upperField (identityEntries ik tcu ty idv) "identid" with
    | Except.ok a, Except.ok b, Except.ok c, Except.ok d =>
        get_or_create_core st a b c d tc
    | _, _, _, _ => (st, Option.none)) =
    get_or_create_core st (some (pyUpper ik)) (some (pyUpper tcu))
      (some (pyUpper ty)) (some (pyUpper idv)) tc
  rw [upperField_str_entry (identityEntries_identkey ik tcu ty idv) hik,
      upperField_str_entry (identityEntries_tcUniqueId ik tcu ty idv) htcu,
      upperField_str_entry (identityEntries_identtype ik tcu ty idv) hty,
      upperField_str_entry (identityEntries_identid ik tcu ty idv) hidv]

theorem additional_identifiers_nosplit (st : SysState) (u : String)
    (tracker : Nat)
    (h : pySplitOnce (pyReplace u "ADSB" "ICAO").data = Option.none) :
    additional_identifiers_from_uniqueId st u tracker = Except.ok st := by
  unfold additional_identifiers_from_uniqueId
  rw [h]

theorem resolveBranch_declared_hit (st : SysState) (ti : TIRow)
    (ik tcu ty idv : String) (st1 : SysState) (r : Option TIRow)
    (st2 : SysState)
    (hcreate : create_tracker_identifier st ti.tracker "TCUID" tcu =
      Except.ok (st1, r))
    (hadd : additional_identifiers_from_uniqueId st1 tcu ti.tracker =
      Except.ok st2) :
    resolveBranch st (some ti) Option.none (some ik) (some tcu) ty idv =
      Except.ok (st2, some ti.tracker, some ti) := by
  unfold resolveBranch
  show (match create_tracker_identifier st ti.tracker "TCUID" tcu with
    | Except.error stE => Except.error stE
    | Except.ok (st1', _) =>
        match additional_identifiers_from_uniqueId st1' tcu ti.tracker with
        | Except.error stE => Except.error stE
        | Except.ok st2' => Except.ok (st2', some ti.tracker, some ti)) =
    Except.ok (st2, some ti.tracker, some ti)
  rw [hcreate]
  show (match additional_identifiers_from_uniqueId st1 tcu ti.tracker with
    | Except.error stE => Except.error stE
    | Except.ok st2' => Except.ok (st2', some ti.tracker, some ti)) = _
  rw [hadd]

theorem get_or_create_core_resolved (st : SysState)
    (a b : Option String) (c d : String) (tc : PyVal)
    (stR : SysState) (tr : Nat) (ti' : Option TIRow)
    (hres : resolveBranch st (find_tracker_identifier_by_identkey st a)
        (find_tracker_identifier_by_identkey st
          (b.map (fun u => "TCUID_" ++ u))) a b c d =
      Except.ok (stR, some tr, ti'))
    (htc : truthy tc = false) :
    get_or_create_core st a b (some c) (some d) tc = (stR, ti') := by
  unfold get_or_create_core
  show (match resolveBranch st (find_tracker_identifier_by_identkey st a)
      (find_tracker_identifier_by_identkey st
        (b.map (fun u => "TCUID_" ++ u))) a b c d with
    | Except.error stE => (stE, Option.none)
    | Except.ok (st', tracker?, ti'') =>
        match tracker? with
        | some t =>
            if truthy tc then (tc_group_management st' tc c t, ti'')
            else (st', ti'')
        | Option.none => (st', ti'')) = (stR, ti')
  rw [hres]
  show (if truthy tc then (tc_group_management stR tc c tr, ti')
        else (stR, ti')) = (stR, ti')
  rw [if_neg (by simp [htc])]

theorem tcuid_prefix_append (tcu : String) :
    ("TCUID" : String) ++ "_" ++ tcu = "TCUID_" ++ tcu := by
  cases tcu with
  | mk d => rfl

/-- C5: when the declared identkey resolves to an existing tracker and a
supplied vendor unique id is not yet linked, the resolver creates the
vendor-alias (TCUID) TrackerIdentifier on that same tracker, creates no
new Tracker and returns the declared identifier (first conjunct, for a
vendor id embedding no secondary identity); and the decomposition step
turns a vendor id of the form PREFIX-ID with a recognized prefix into a
secondary TrackerIdentifier of that native type on the tracker whenever
that identkey does not already resolve (second conjunct). -/
theorem resolver_cross_alias_link (st : SysState) (ik tcu ty idv : String)
    (ti : TIRow)
    (hik : ik ≠ "") (htcu : tcu ≠ "") (hty : ty ≠ "") (hidv : idv ≠ "")
    (hikU : pyUpper ik = ik) (htcuU : pyUpper tcu = tcu)
    (htyU : pyUpper ty = ty) (hidvU : pyUpper idv = idv)
    (h1 : find_tracker_identifier_by_identkey st (some ik) = some ti)
    (h2 : find_tracker_identifier_by_identkey st
      (some ("TCUID_" ++ tcu)) = Option.none)
    (hT : st.db.types.contains "TCUID" = true)
    (hwf : identkeysDerived st.db)
    (hnosplit : pySplitOnce (pyReplace tcu "ADSB" "ICAO").data =
      Option.none) :
    (∃ st', get_or_create_tracker_identifier st (identityDict ik tcu ty idv)
        PyVal.none = (st', some ti) ∧
      st'.db.trackers = st.db.trackers ∧
      st'.db.identifiers.map (fun r => (r.identkey, r.tracker)) =
        st.db.identifiers.map (fun r => (r.identkey, r.tracker)) ++
          [("TCUID_" ++ tcu, ti.tracker)]) ∧
    (∀ (st2 : SysState) (tracker : Nat) (u : String) (p i : List Char),
      pySplitOnce (pyReplace u "ADSB" "ICAO").data = some (p, i) →
      (String.mk p = "ICAO" ∨ String.mk p = "MMSI" ∨
       String.mk p = "DMR" ∨ String.mk p = "GMS") →
      ∀ pfx' : String,
        pfx' = (if String.mk p = "DMR" then "DMR_RN" else String.mk p) →
        st2.db.types.contains pfx' = true →
        pyUpper (String.mk i) = String.mk i →
        find_tracker_identifier_by_identkey st2
          (some (pfx' ++ "_" ++ String.mk i)) = Option.none →
        identkeysDerived st2.db →
        ∃ db2, additional_identifiers_from_uniqueId st2 u tracker =
            Except.ok { st2 with db := db2 } ∧
          db2.trackers = st2.db.trackers ∧
          db2.identifiers.map (fun r => (r.identkey, r.tracker)) =
            st2.db.identifiers.map (fun r => (r.identkey, r.tracker)) ++
              [(pfx' ++ "_" ++ String.mk i, tracker)]) := by
  constructor
  · obtain ⟨db', hsave, hcreate, hids, htrk, -, -, -, hkey, htrkr, -, -⟩ :=
      create_tracker_identifier_fresh st ti.tracker "TCUID" tcu hT rfl
        htcuU h2 hwf
    have hadd : additional_identifiers_from_uniqueId
        { st with db := db' } tcu ti.tracker =
        Except.ok { st with db := db' } :=
      additional_identifiers_nosplit _ tcu ti.tracker hnosplit
    have hres : resolveBranch st
        (find_tracker_identifier_by_identkey st (some ik))
        (find_tracker_identifier_by_identkey st
          ((some tcu).map (fun u => "TCUID_" ++ u)))
        (some ik) (some tcu) ty idv =
        Except.ok ({ st with db := db' }, some ti.tracker, some ti) := by
      rw [h1]
      rw [show find_tracker_identifier_by_identkey st
          ((some tcu).map (fun u => "TCUID_" ++ u)) = Option.none from h2]
      exact resolveBranch_declared_hit st ti ik tcu ty idv
        { st with db := db' } (some (newTIRow st.db ti.tracker "TCUID" tcu))
        { st with db := db' } hcreate hadd
    refine ⟨{ st with db := db' }, ?_, htrk, ?_⟩
    · rw [get_or_create_on_identityDict st ik tcu ty idv PyVal.none hik
        htcu hty hidv]
      rw [hikU, htcuU, htyU, hidvU]
      exact get_or_create_core_resolved st (some ik) (some tcu) ty idv
        PyVal.none { st with db := db' } ti.tracker (some ti) hres rfl
    · show db'.identifiers.map (fun r => (r.identkey, r.tracker)) = _
      rw [hids]
      simp only [List.map_append, List.map_cons, List.map_nil]
      rw [hkey, htrkr, tcuid_prefix_append]
  · intro st2 tracker u p i hsplit hrec pfx' hpfx hT2 hiU hmiss2 hwf2
    have hcU : pyUpper pfx' = pfx' := by
      rcases hrec with h | h | h | h <;> rw [hpfx, h] <;> rfl
    obtain ⟨db2, hsave2, hcreate2, hids2, htrk2, -, -, -, hkey2, htrkr2,
        -, -⟩ :=
      create_tracker_identifier_fresh st2 tracker pfx' (String.mk i) hT2
        hcU hiU hmiss2 hwf2
    have hadd2 : additional_identifiers_from_uniqueId st2 u tracker =
        Except.ok { st2 with db := db2 } := by
      unfold additional_identifiers_from_uniqueId
      rw [hsplit]
      show (if (String.mk p) = "ICAO" ∨ (String.mk p) = "MMSI" ∨
              (String.mk p) = "DMR" ∨ (String.mk p) = "GMS" then
          match find_tracker_identifier_by_identkey st2
              (some ((if (String.mk p) = "DMR" then "DMR_RN"
                      else (String.mk p)) ++ "_" ++ (String.mk i))) with
          | some _ => Except.ok st2
          | Option.none =>
              match create_tracker_identifier st2 tracker
                  (if (String.mk p) = "DMR" then "DMR_RN"
                   else (String.mk p)) (String.mk i) with
              | Except.ok (st', _) => Except.ok st'
              | Except.error stE => Except.error stE
        else Except.ok st2) = Except.ok { st2 with db := db2 }
      rw [if_pos hrec, ← hpfx, hmiss2]
      show (match create_tracker_identifier st2 tracker pfx'
          (String.mk i) with
        | Except.ok (st', _) => Except.ok st'
        | Except.error stE => Except.error stE) =
        Except.ok { st2 with db := db2 }
      rw [hcreate2]
    refine ⟨db2, hadd2, htrk2, ?_⟩
    rw [hids2]
    simp only [List.map_append, List.map_cons, List.map_nil]
    rw [hkey2, htrkr2]

/-- C5 witness: a tracker known as MMSI_123 gains exactly the TCUID_XYZ1
alias when the same declared key arrives with the fresh vendor id XYZ1. -/
theorem resolver_cross_alias_link_witness :
    (get_or_create_tracker_identifier stC5
      (identityDict "MMSI_123" "XYZ1" "MMSI" "123") PyVal.none).2 =
      some rowC5 ∧
    (get_or_create_tracker_identifier stC5
      (identityDict "MMSI_123" "XYZ1" "MMSI" "123")
      PyVal.none).1.db.trackers = stC5.db.trackers ∧
    (get_or_create_tracker_identifier stC5
      (identityDict "MMSI_123" "XYZ1" "MMSI" "123")
      PyVal.none).1.db.identifiers.map (fun r => (r.identkey, r.tracker)) =
      [("MMSI_123", 5), ("TCUID_XYZ1", 5)] := by
  obtain ⟨-, ⟨st', heq, htrk, hmap⟩, -⟩ :=
    And.intro True.intro (resolver_cross_alias_link stC5 "MMSI_123" "XYZ1"
      "MMSI" "123" rowC5
      (by simp) (by simp) (by simp) (by simp)
      (by rfl) (by rfl) (by rfl) (by rfl)
      (by rfl) (by rfl) (by rfl)
      (by intro r hr
          ; have hr2 : r ∈ [rowC5] := hr
          ; have h3 := List.mem_singleton.mp hr2
          ; subst h3
          ; rfl)
      (by simp [pyReplace, pyReplaceList, pySplitOnce]))
  rw [heq]
  refine ⟨rfl, htrk, ?_⟩
  rw [hmap]
  rfl

/-- C2 counterexample: an identity supplying only the vendor unique id is
rejected by the identtype/identid guard (util_db.py:193) before any
lookup or creation happens — no Tracker and no TrackerIdentifier is
created, the state is returned untouched with None. -/
theorem vendor_only_identity_creates_nothing :
    get_or_create_tracker_identifier (stOf (dbWithTypes ["TCUID"]))
      vendorOnlyIdentity PyVal.none =
      (stOf (dbWithTypes ["TCUID"]), Option.none) := rfl

theorem resolveBranch_both_miss (st : SysState) (ik tcu ty idv : String)
    (stA : SysState) (tiA : Option TIRow) (stB : SysState)
    (rB : Option TIRow) (stC : SysState)
    (hc1 : create_tracker_identifier
        { st with db := (trackerCreate st.db).1 }
        (trackerCreate st.db).2 ty idv = Except.ok (stA, tiA))
    (hc2 : create_tracker_identifier stA (trackerCreate st.db).2
        "TCUID" tcu = Except.ok (stB, rB))
    (hadd : additional_identifiers_from_uniqueId stB tcu
        (trackerCreate st.db).2 = Except.ok stC) :
    resolveBranch st Option.none Option.none (some ik) (some tcu) ty idv =
      Except.ok (stC, some (trackerCreate st.db).2, tiA) := by
  unfold resolveBranch
  show (match create_tracker_identifier
      { st with db := (trackerCreate st.db).1 }
      (trackerCreate st.db).2 ty idv with
    | Except.error stE => Except.error stE
    | Except.ok (st1, ti') =>
        match create_tracker_identifier st1 (trackerCreate st.db).2
            "TCUID" tcu with
        | Except.error stE => Except.error stE
        | Except.ok (st2, _) =>
            match additional_identifiers_from_uniqueId st2 tcu
                (trackerCreate st.db).2 with
            | Except.error stE => Except.error stE
            | Except.ok st3 =>
                Except.ok (st3, some (trackerCreate st.db).2, ti')) =
    Except.ok (stC, some (trackerCreate st.db).2, tiA)
  rw [hc1]
  show (match create_tracker_identifier stA (trackerCreate st.db).2
      "TCUID" tcu with
    | Except.error stE => Except.error stE
    | Except.ok (st2, _) =>
        match additional_identifiers_from_uniqueId st2 tcu
            (trackerCreate st.db).2 with
        | Except.error stE => Except.error stE
        | Except.ok st3 =>
            Except.ok (st3, some (trackerCreate st.db).2, tiA)) = _
  rw [hc2]
  show (match additional_identifiers_from_uniqueId stB tcu
      (trackerCreate st.db).2 with
    | Except.error stE => Except.error stE
    | Except.ok st3 =>
        Except.ok (st3, some (trackerCreate st.db).2, tiA)) = _
  rw [hadd]

/-- C2 (amended): when both candidate lookups miss and the declared
type and external id pass the guard, the resolver creates exactly one
new Tracker (the trackers column becomes exactly the
Tracker.objects.create() result) and one TrackerIdentifier per present
candidate key: the declared one under identkey identtype_identid and
the vendor alias under TCUID_uid; the returned identifier is the
declared one and it points at the new tracker.  (When only the vendor
unique id is supplied the guard returns None first and nothing at all
is created.) -/
theorem resolver_both_miss_creation (st : SysState) (ik tcu ty idv : String)
    (hik : ik ≠ "") (htcu : tcu ≠ "") (hty : ty ≠ "") (hidv : idv ≠ "")
    (hikU : pyUpper ik = ik) (htcuU : pyUpper tcu = tcu)
    (htyU : pyUpper ty = ty) (hidvU : pyUpper idv = idv)
    (hm1 : find_tracker_identifier_by_identkey st (some ik) = Option.none)
    (hm2 : find_tracker_identifier_by_identkey st
      (some ("TCUID_" ++ tcu)) = Option.none)
    (hm3 : find_tracker_identifier_by_identkey st
      (some (ty ++ "_" ++ idv)) = Option.none)
    (hTty : st.db.types.contains ty = true)
    (hTtc : st.db.types.contains "TCUID" = true)
    (hwf : identkeysDerived st.db)
    (hne : ty ++ "_" ++ idv ≠ "TCUID_" ++ tcu)
    (hnosplit : pySplitOnce (pyReplace tcu "ADSB" "ICAO").data =
      Option.none) :
    ∃ st' row,
      get_or_create_tracker_identifier st (identityDict ik tcu ty idv)
        PyVal.none = (st', some row) ∧
      row.identkey = ty ++ "_" ++ idv ∧
      row.tracker = st.db.nextTracker ∧
      st'.db.trackers = (trackerCreate st.db).1.trackers ∧
      st'.db.nextTracker = st.db.nextTracker + 1 ∧
      st'.db.identifiers.map (fun r => (r.identkey, r.tracker)) =
        st.db.identifiers.map (fun r => (r.identkey, r.tracker)) ++
          [(ty ++ "_" ++ idv, st.db.nextTracker),
           ("TCUID_" ++ tcu, st.db.nextTracker)] := by
  have htid : (trackerCreate st.db).2 = st.db.nextTracker := rfl
  have hm2s : find_tracker_identifier_by_identkey
      { st with db := (trackerCreate st.db).1 }
      (some ("TCUID_" ++ tcu)) = Option.none := hm2
  have hm3s : find_tracker_identifier_by_identkey
      { st with db := (trackerCreate st.db).1 }
      (some (ty ++ "_" ++ idv)) = Option.none := hm3
  have hTs : ({ st with db := (trackerCreate st.db).1 } :
      SysState).db.types.contains ty = true := hTty
  have hwfs : identkeysDerived ({ st with db := (trackerCreate st.db).1 } :
      SysState).db := hwf
  obtain ⟨db1, -, hcreate1, hids1, htrk1, htypes1, hnextT1, hwf1, hkey1,
      htrkr1, -, -⟩ :=
    create_tracker_identifier_fresh { st with db := (trackerCreate st.db).1 }
      (trackerCreate st.db).2 ty idv hTs htyU hidvU hm3s hwfs
  have hKne2 : ("TCUID_" ++ tcu : String) ≠ "" := by
    rw [← tcuid_prefix_append]
    exact append_underscore_ne_empty "TCUID" tcu
  have hrowne : (newTIRow ({ st with db := (trackerCreate st.db).1 } :
      SysState).db (trackerCreate st.db).2 ty idv).identkey ≠
      "TCUID_" ++ tcu := by
    rw [hkey1]
    exact hne
  have hm2q := find_after_append { st with db := (trackerCreate st.db).1 }
    db1 (newTIRow ({ st with db := (trackerCreate st.db).1 } :
      SysState).db (trackerCreate st.db).2 ty idv)
    ("TCUID_" ++ tcu) hKne2 hids1 hm2s hrowne
  have hT2 : ({ { st with db := (trackerCreate st.db).1 } with db := db1 } :
      SysState).db.types.contains "TCUID" = true := by
    show db1.types.contains "TCUID" = true
    rw [htypes1]
    exact hTtc
  have hwf1s : identkeysDerived
      ({ { st with db := (trackerCreate st.db).1 } with db := db1 } :
        SysState).db := hwf1
  obtain ⟨db2, -, hcreate2, hids2, htrk2, htypes2, hnextT2, -, hkey2,
      htrkr2, -, -⟩ :=
    create_tracker_identifier_fresh
      { { st with db := (trackerCreate st.db).1 } with db := db1 }
      (trackerCreate st.db).2 "TCUID" tcu hT2 rfl htcuU hm2q hwf1s
  have hadd := additional_identifiers_nosplit
    { { { st with db := (trackerCreate st.db).1 } with db := db1 } with
      db := db2 } tcu (trackerCreate st.db).2 hnosplit
  have hres0 := resolveBranch_both_miss st ik tcu ty idv _ _ _ _ _
    hcreate1 hcreate2 hadd
  have hres : resolveBranch st
      (find_tracker_identifier_by_identkey st (some ik))
      (find_tracker_identifier_by_identkey st
        ((some tcu).map (fun u => "TCUID_" ++ u)))
      (some ik) (some tcu) ty idv =
      Except.ok
        ({ { { st with db := (trackerCreate st.db).1 } with db := db1 } with
            db := db2 },
          some (trackerCreate st.db).2,
          some (newTIRow ({ st with db := (trackerCreate st.db).1 } :
            SysState).db (trackerCreate st.db).2 ty idv)) := by
    rw [hm1]
    rw [show find_tracker_identifier_by_identkey st
        ((some tcu).map (fun u => "TCUID_" ++ u)) = Option.none from hm2]
    exact hres0
  refine ⟨{ { { st with db := (trackerCreate st.db).1 } with db := db1 } with
      db := db2 },
    newTIRow ({ st with db := (trackerCreate st.db).1 } : SysState).db
      (trackerCreate st.db).2 ty idv,
    ?_, hkey1, ?_, ?_, ?_, ?_⟩
  · rw [get_or_create_on_identityDict st ik tcu ty idv PyVal.none hik
      htcu hty hidv, hikU, htcuU, htyU, hidvU]
    exact get_or_create_core_resolved st (some ik) (some tcu) ty idv
      PyVal.none _ (trackerCreate st.db).2 _ hres rfl
  · exact (show (newTIRow (trackerCreate st.db).1 (trackerCreate st.db).2
      ty idv).tracker = st.db.nextTracker from htrkr1)
  · show db2.trackers = (trackerCreate st.db).1.trackers
    have htrk2q : db2.trackers = db1.trackers := htrk2
    have htrk1q : db1.trackers = (trackerCreate st.db).1.trackers := htrk1
    rw [htrk2q, htrk1q]
  · show db2.nextTracker = st.db.nextTracker + 1
    have hnextT2q : db2.nextTracker = db1.nextTracker := hnextT2
    have hnextT1q : db1.nextTracker = st.db.nextTracker + 1 := hnextT1
    rw [hnextT2q, hnextT1q]
  · show db2.identifiers.map (fun r => (r.identkey, r.tracker)) = _
    have hids2q : db2.identifiers = db1.identifiers ++
        [newTIRow db1 (trackerCreate st.db).2 "TCUID" tcu] := hids2
    have hids1q : db1.identifiers = st.db.identifiers ++
        [newTIRow (trackerCreate st.db).1 (trackerCreate st.db).2 ty idv] :=
      hids1
    have hkey1q : (newTIRow (trackerCreate st.db).1 (trackerCreate st.db).2
        ty idv).identkey = ty ++ "_" ++ idv := hkey1
    have htrkr1q : (newTIRow (trackerCreate st.db).1 (trackerCreate st.db).2
        ty idv).tracker = st.db.nextTracker := htrkr1
    have hkey2q : (newTIRow db1 (trackerCreate st.db).2
        "TCUID" tcu).identkey = "TCUID" ++ "_" ++ tcu := hkey2
    have htrkr2q : (newTIRow db1 (trackerCreate st.db).2
        "TCUID" tcu).tracker = st.db.nextTracker := htrkr2
    rw [hids2q, hids1q]
    simp only [List.map_append, List.map_cons, List.map_nil]
    rw [hkey1q, htrkr1q, hkey2q, htrkr2q, tcuid_prefix_append]
    simp [List.append_assoc]

/-- C2 witness: on an empty store knowing the MMSI and TCUID types, the
identity (MMSI_7, XYZ1, MMSI, 7) creates tracker 0 with exactly the
declared MMSI_7 identifier and the TCUID_XYZ1 alias. -/
theorem resolver_both_miss_creation_witness :
    ((get_or_create_tracker_identifier (stOf (dbWithTypes ["MMSI", "TCUID"]))
        (identityDict "MMSI_7" "XYZ1" "MMSI" "7") PyVal.none).2.map
      (fun r => (r.identkey, r.tracker)) = some ("MMSI_7", 0)) ∧
    (get_or_create_tracker_identifier (stOf (dbWithTypes ["MMSI", "TCUID"]))
        (identityDict "MMSI_7" "XYZ1" "MMSI" "7")
        PyVal.none).1.db.identifiers.map
      (fun r => (r.identkey, r.tracker)) =
      [("MMSI_7", 0), ("TCUID_XYZ1", 0)] ∧
    (get_or_create_tracker_identifier (stOf (dbWithTypes ["MMSI", "TCUID"]))
        (identityDict "MMSI_7" "XYZ1" "MMSI" "7")
        PyVal.none).1.db.trackers.length = 1 := by
  obtain ⟨st', row, heq, hkey, htr, htrks, hnext, hmap⟩ :=
    resolver_both_miss_creation (stOf (dbWithTypes ["MMSI", "TCUID"]))
      "MMSI_7" "XYZ1" "MMSI" "7"
      (by simp) (by simp) (by simp) (by simp)
      (by rfl) (by rfl) (by rfl) (by rfl)
      (by rfl) (by rfl) (by rfl)
      (by rfl) (by rfl)
      (by intro r hr
          ; have h2 : r ∈ ([] : List TIRow) := hr
          ; simp at h2)
      (by decide)
      (by simp [pyReplace, pyReplaceList, pySplitOnce])
  rw [heq]
  refine ⟨?_, ?_, ?_⟩
  · show some (row.identkey, row.tracker) = some ("MMSI_7", 0)
    rw [hkey, htr]
    rfl
  · rw [hmap]
    rfl
  · rw [htrks]
    rfl

end Portal
